import Mathlib

/-!
Shallow embedding of the AWS Secrets Manager single-user rotation lambdas
of this repository (lambda_code/mariadb/single/lambda_function.py and
lambda_code/postgres/single/lambda_function.py).

Secret payloads are JSON objects, modelled as association lists of
string keys to JSON-like values.  The secrets vault and the database
driver are external collaborators: vault reads are modelled by a
`Fetch` value per staging label, database logins by a boolean oracle
over the connection parameters, and the vault password generator by a
string parameter.  Each lambda function is translated into a Lean
function that returns its Python outcome (normal return or raised
exception, as `Except PyErr`) together with the trace of external
effects it performed (connection attempts, SQL statements, vault
writes).
-/

/-- JSON-like values occurring in a secret payload dictionary. -/
inductive JVal where
  | str (s : String)
  | num (n : Int)
  | bool (b : Bool)
  | null
  deriving DecidableEq

/-- A parsed secret payload: a JSON object with string keys (keys are
unique in any dictionary produced by JSON parsing). -/
abbrev SecretDict := List (String × JVal)

/-- Dictionary lookup, first binding wins (Python dict indexing). -/
def lookup : SecretDict → String → Option JVal
  | [], _ => none
  | (k, v) :: t, key => if k = key then some v else lookup t key

/-- Membership test, models the Python test `key in d`. -/
def hasKey (d : SecretDict) (k : String) : Bool :=
  (lookup d k).isSome

/-- Dictionary update `d[k] = v`: replaces the binding in place, or
appends a new binding (Python dicts keep insertion order). -/
def setKey : SecretDict → String → JVal → SecretDict
  | [], k, v => [(k, v)]
  | (k0, v0) :: t, k, v => if k0 = k then (k, v) :: t else (k0, v0) :: setKey t k v

/-- Dictionary removal `d.pop(k, None)`: removes the binding of `k`
(JSON dictionaries have unique keys, so filtering all bindings of `k`
agrees with removing the one binding). -/
def delKey : SecretDict → String → SecretDict
  | [], _ => []
  | (k0, v0) :: t, k => if k0 = k then delKey t k else (k0, v0) :: delKey t k

/-- Models Python `d.get(k)` whose default is `None`. -/
def pyGet (d : SecretDict) (k : String) : JVal :=
  (lookup d k).getD JVal.null

/-- Models Python `d.get(k, v)` with an explicit default. -/
def pyGetD (d : SecretDict) (k : String) (v : JVal) : JVal :=
  (lookup d k).getD v

/-- Exceptions raised by the lambda code: the vault client not-found
condition, `KeyError`, `ValueError` and `TypeError`. -/
inductive PyErr where
  | resourceNotFound
  | keyError (msg : String)
  | valueError (msg : String)
  | typeError (msg : String)
  deriving DecidableEq

deriving instance DecidableEq for Except

/-- Models Python `d[k]`, raising `KeyError` on a missing key. -/
def pyIndex (d : SecretDict) (k : String) : Except PyErr JVal :=
  match lookup d k with
  | some v => Except.ok v
  | none => Except.error (PyErr.keyError k)

/-- Models Python `str(v)` for the JSON values that can appear in a
payload (used by f-string interpolation and `%`-formatting). -/
def pyStr : JVal → String
  | JVal.str s => s
  | JVal.num n => toString n
  | JVal.bool true => "True"
  | JVal.bool false => "False"
  | JVal.null => "None"

/-- Models Python `int(v)` on a payload value: integers pass through,
numeric strings parse, booleans coerce, `None` raises `TypeError` and
a non-numeric string raises `ValueError`. -/
def pyInt : JVal → Except PyErr Int
  | JVal.num n => Except.ok n
  | JVal.str s =>
      match s.toInt? with
      | some n => Except.ok n
      | none => Except.error (PyErr.valueError "invalid literal for int")
  | JVal.bool b => Except.ok (if b then 1 else 0)
  | JVal.null => Except.error (PyErr.typeError "int of None")

/-- Result of a vault read for one staging label: either the
distinguished not-found condition or a (parsed) payload. -/
inductive Fetch where
  | notFound
  | payload (d : SecretDict)
  deriving DecidableEq

/-- Observable external effects of a step: MariaDB connection attempts
(host, user, password, port, dbname, use SSL), PostgreSQL connection
attempts (host, user, password, dbname, port, sslmode), closing a
session, executing a SQL statement (with optional bound parameter),
committing, generating a random password, and writing a payload to the
vault under staging labels. -/
inductive Ev where
  | attemptM (host user pass : JVal) (port : Int) (dbname : Option JVal) (useSsl : Bool)
  | attemptP (host user pass dbname : JVal) (port : Int) (sslmode : JVal)
  | closeConn
  | execStmt (sql : String) (param : Option JVal)
  | commit
  | genPassword
  | putSecret (payload : SecretDict) (stages : List String)
  deriving DecidableEq

/-- Recognizes SQL statement execution events. -/
def isExecEv : Ev → Bool
  | Ev.execStmt _ _ => true
  | _ => false

/-- Recognizes vault write events. -/
def isPutEv : Ev → Bool
  | Ev.putSecret _ _ => true
  | _ => false

/-- Uppercase hexadecimal digit of a value below 16. -/
def hexUpper (n : Nat) : Char :=
  if n < 10 then Char.ofNat (48 + n) else Char.ofNat (55 + n)

/-- Percent escape of one byte, as produced by `urllib.parse.quote`. -/
def percentEscape (b : Nat) : List Char :=
  [Char.ofNat 37, hexUpper (b / 16), hexUpper (b % 16)]

/-- UTF-8 encoding of one character as byte values. -/
def utf8Bytes (c : Char) : List Nat :=
  let n := c.toNat
  if n < 128 then [n]
  else if n < 2048 then [192 + n / 64, 128 + n % 64]
  else if n < 65536 then [224 + n / 4096, 128 + n / 64 % 64, 128 + n % 64]
  else [240 + n / 262144, 128 + n / 4096 % 64, 128 + n / 64 % 64, 128 + n % 64]

/-- Characters that `urllib.parse.quote` never escapes: ASCII letters,
digits and the four marks underscore, dot, dash, tilde. -/
def quoteSafeChar (c : Char) : Bool :=
  c.isAlpha || c.isDigit || c == '_' || c == '.' || c == '-' || c == '~'

/-- Per-character action of `urllib.parse.quote_plus` with an empty
safe set: a space becomes a plus sign, safe characters pass through,
every other character is percent-escaped byte by byte. -/
def quotePlusChar (c : Char) : List Char :=
  if c == ' ' then [Char.ofNat 43]
  else if quoteSafeChar c then [c]
  else ((utf8Bytes c).map percentEscape).flatten

/-- Models `urllib.parse.quote_plus` on a string. -/
def quote_plus (s : String) : String :=
  String.mk ((s.data.map quotePlusChar).flatten)

/-- Models `generate_connection_string` of the PostgreSQL variant: a
template per `connection_string_type`, with key accesses that can raise
`KeyError` exactly where the Python f-string indexes the dictionary. -/
def generate_connection_string_pg (secret_dict : SecretDict) (new_password : String) :
    Except PyErr String :=
  let connection_string_type := pyGet secret_dict "connection_string_type"
  let encoded_password := quote_plus new_password
  if connection_string_type = JVal.str "jdbc" then
    match lookup secret_dict "host", lookup secret_dict "username" with
    | some h, some u =>
        Except.ok ("jdbc:postgresql://" ++ pyStr h ++ ":" ++
          pyStr (pyGetD secret_dict "port" (JVal.num 5432)) ++ "/" ++
          pyStr (pyGet secret_dict "dbname") ++ "?user=" ++ pyStr u ++
          "&password=" ++ encoded_password ++ "&ssl=true&sslmode=" ++
          pyStr (pyGet secret_dict "sslmode") ++ "&schema=" ++
          pyStr (pyGetD secret_dict "schema" (JVal.str "public")))
    | none, _ => Except.error (PyErr.keyError "host")
    | some _, none => Except.error (PyErr.keyError "username")
  else if connection_string_type = JVal.str "dotnet" then
    match lookup secret_dict "host", lookup secret_dict "username" with
    | some h, some u =>
        Except.ok ("Host=" ++ pyStr h ++ ";Port=" ++
          pyStr (pyGetD secret_dict "port" (JVal.num 5432)) ++ ";Database=" ++
          pyStr (pyGet secret_dict "dbname") ++ ";Username=" ++ pyStr u ++
          ";Password=" ++ new_password ++ ";SSL Mode=" ++
          pyStr (pyGet secret_dict "sslmode") ++ ";Search Path=" ++
          pyStr (pyGetD secret_dict "schema" (JVal.str "public")) ++ ";")
    | none, _ => Except.error (PyErr.keyError "host")
    | some _, none => Except.error (PyErr.keyError "username")
  else if connection_string_type = JVal.str "odbc" then
    match lookup secret_dict "host", lookup secret_dict "username" with
    | some h, some u =>
        Except.ok ("Driver=\x7bPostgreSQL ODBC Driver(UNICODE)\x7d;Server=" ++
          pyStr h ++ ";Port=" ++
          pyStr (pyGetD secret_dict "port" (JVal.num 5432)) ++ ";Database=" ++
          pyStr (pyGet secret_dict "dbname") ++ ";UID=" ++ pyStr u ++
          ";PWD=" ++ new_password ++ ";sslmode=" ++
          pyStr (pyGet secret_dict "sslmode") ++ ";schema=" ++
          pyStr (pyGetD secret_dict "schema" (JVal.str "public")))
    | none, _ => Except.error (PyErr.keyError "host")
    | some _, none => Except.error (PyErr.keyError "username")
  else if connection_string_type = JVal.str "gopq" then
    match lookup secret_dict "username", lookup secret_dict "host" with
    | some u, some h =>
        Except.ok ("postgres://" ++ pyStr u ++ ":" ++ encoded_password ++ "@" ++
          pyStr h ++ ":" ++ pyStr (pyGetD secret_dict "port" (JVal.num 5432)) ++ "/" ++
          pyStr (pyGet secret_dict "dbname") ++ "?sslmode=" ++
          pyStr (pyGet secret_dict "sslmode") ++ "&schema=" ++
          pyStr (pyGetD secret_dict "schema" (JVal.str "public")))
    | none, _ => Except.error (PyErr.keyError "username")
    | some _, none => Except.error (PyErr.keyError "host")
  else if connection_string_type = JVal.str "node-pg" ∨
          connection_string_type = JVal.str "psycopg" ∨
          connection_string_type = JVal.str "rustpg" then
    match lookup secret_dict "username", lookup secret_dict "host" with
    | some u, some h =>
        Except.ok ("postgressql://" ++ pyStr u ++ ":" ++ encoded_password ++ "@" ++
          pyStr h ++ ":" ++ pyStr (pyGetD secret_dict "port" (JVal.num 5432)) ++ "/" ++
          pyStr (pyGet secret_dict "dbname") ++ "?sslmode=" ++
          pyStr (pyGet secret_dict "sslmode") ++ "&schema=" ++
          pyStr (pyGetD secret_dict "schema" (JVal.str "public")))
    | none, _ => Except.error (PyErr.keyError "username")
    | some _, none => Except.error (PyErr.keyError "host")
  else
    Except.ok "(connection string type not supported)"

/-- Models `generate_connection_string` of the MariaDB variant.  It
differs from the PostgreSQL variant in two places: the jdbc template
lacks the ampersand before `ssl=true`, and the dotnet and odbc
templates interpolate the percent-encoded password. -/
def generate_connection_string_maria (secret_dict : SecretDict) (new_password : String) :
    Except PyErr String :=
  let connection_string_type := pyGet secret_dict "connection_string_type"
  let encoded_password := quote_plus new_password
  if connection_string_type = JVal.str "jdbc" then
    match lookup secret_dict "host", lookup secret_dict "username" with
    | some h, some u =>
        Except.ok ("jdbc:postgresql://" ++ pyStr h ++ ":" ++
          pyStr (pyGetD secret_dict "port" (JVal.num 5432)) ++ "/" ++
          pyStr (pyGet secret_dict "dbname") ++ "?user=" ++ pyStr u ++
          "&password=" ++ encoded_password ++ "ssl=true&sslmode=" ++
          pyStr (pyGet secret_dict "sslmode") ++ "&schema=" ++
          pyStr (pyGetD secret_dict "schema" (JVal.str "public")))
    | none, _ => Except.error (PyErr.keyError "host")
    | some _, none => Except.error (PyErr.keyError "username")
  else if connection_string_type = JVal.str "dotnet" then
    match lookup secret_dict "host", lookup secret_dict "username" with
    | some h, some u =>
        Except.ok ("Host=" ++ pyStr h ++ ";Port=" ++
          pyStr (pyGetD secret_dict "port" (JVal.num 5432)) ++ ";Database=" ++
          pyStr (pyGet secret_dict "dbname") ++ ";Username=" ++ pyStr u ++
          ";Password=" ++ encoded_password ++ ";SSL Mode=" ++
          pyStr (pyGet secret_dict "sslmode") ++ ";Search Path=" ++
          pyStr (pyGetD secret_dict "schema" (JVal.str "public")) ++ ";")
    | none, _ => Except.error (PyErr.keyError "host")
    | some _, none => Except.error (PyErr.keyError "username")
  else if connection_string_type = JVal.str "odbc" then
    match lookup secret_dict "host", lookup secret_dict "username" with
    | some h, some u =>
        Except.ok ("Driver=\x7bPostgreSQL ODBC Driver(UNICODE)\x7d;Server=" ++
          pyStr h ++ ";Port=" ++
          pyStr (pyGetD secret_dict "port" (JVal.num 5432)) ++ ";Database=" ++
          pyStr (pyGet secret_dict "dbname") ++ ";UID=" ++ pyStr u ++
          ";PWD=" ++ encoded_password ++ ";sslmode=" ++
          pyStr (pyGet secret_dict "sslmode") ++ ";schema=" ++
          pyStr (pyGetD secret_dict "schema" (JVal.str "public")))
    | none, _ => Except.error (PyErr.keyError "host")
    | some _, none => Except.error (PyErr.keyError "username")
  else if connection_string_type = JVal.str "gopq" then
    match lookup secret_dict "username", lookup secret_dict "host" with
    | some u, some h =>
        Except.ok ("postgres://" ++ pyStr u ++ ":" ++ encoded_password ++ "@" ++
          pyStr h ++ ":" ++ pyStr (pyGetD secret_dict "port" (JVal.num 5432)) ++ "/" ++
          pyStr (pyGet secret_dict "dbname") ++ "?sslmode=" ++
          pyStr (pyGet secret_dict "sslmode") ++ "&schema=" ++
          pyStr (pyGetD secret_dict "schema" (JVal.str "public")))
    | none, _ => Except.error (PyErr.keyError "username")
    | some _, none => Except.error (PyErr.keyError "host")
  else if connection_string_type = JVal.str "node-pg" ∨
          connection_string_type = JVal.str "psycopg" ∨
          connection_string_type = JVal.str "rustpg" then
    match lookup secret_dict "username", lookup secret_dict "host" with
    | some u, some h =>
        Except.ok ("postgressql://" ++ pyStr u ++ ":" ++ encoded_password ++ "@" ++
          pyStr h ++ ":" ++ pyStr (pyGetD secret_dict "port" (JVal.num 5432)) ++ "/" ++
          pyStr (pyGet secret_dict "dbname") ++ "?sslmode=" ++
          pyStr (pyGet secret_dict "sslmode") ++ "&schema=" ++
          pyStr (pyGetD secret_dict "schema" (JVal.str "public")))
    | none, _ => Except.error (PyErr.keyError "username")
    | some _, none => Except.error (PyErr.keyError "host")
  else
    Except.ok "(connection string type not supported)"

/-- Database login oracle of the MariaDB driver: decides whether
`pymysql.connect` succeeds for given host, user, password, port,
database and SSL flag.  It abstracts the external database. -/
abbrev MariaOracle := JVal → JVal → JVal → Int → Option JVal → Bool → Bool

/-- Database login oracle of the PostgreSQL driver: decides whether
`psycopg.connect` succeeds for given host, user, password, dbname,
port and sslmode.  It abstracts the external database. -/
abbrev PgOracle := JVal → JVal → JVal → JVal → Int → JVal → Bool

/-- Models Python `str.lower()` character by character (the library
`String.toLower` is extensionally the same map but is not structurally
reducible; the values compared here are ASCII). -/
def pyLower (s : String) : String :=
  String.mk (s.data.map Char.toLower)

/-- Models `get_ssl_config` of the MariaDB variant: the pair
(use_ssl, fall_back) derived from the `ssl` key. -/
def get_ssl_config (secret_dict : SecretDict) : Bool × Bool :=
  match lookup secret_dict "ssl" with
  | none => (true, true)
  | some (JVal.bool b) => (b, false)
  | some (JVal.str s) =>
      let ssl := pyLower s
      if ssl = "true" then (true, false)
      else if ssl = "false" then (false, false)
      else (true, true)
  | some _ => (true, true)

/-- Models `connect_and_authenticate` of the MariaDB variant: reads
host, username and password from the dictionary (`KeyError` when one is
missing, before any attempt), records the connection attempt, and
returns a session when the oracle accepts the credentials. -/
def connect_and_authenticate (ora : MariaOracle) (secret_dict : SecretDict)
    (port : Int) (dbname : Option JVal) (use_ssl : Bool) :
    Except PyErr (Option Unit) × List Ev :=
  match lookup secret_dict "host", lookup secret_dict "username",
        lookup secret_dict "password" with
  | some h, some u, some p =>
      (Except.ok (if ora h u p port dbname use_ssl then some () else none),
       [Ev.attemptM h u p port dbname use_ssl])
  | _, _, _ => (Except.error (PyErr.keyError "host or username or password"), [])

/-- Models `get_connection` of the MariaDB variant: resolves the port
(default 3306) and dbname, derives the SSL policy, attempts a
connection, and retries once without SSL when permitted. -/
def get_connection_maria (ora : MariaOracle) (secret_dict : SecretDict) :
    Except PyErr (Option Unit) × List Ev :=
  match (if hasKey secret_dict "port" then pyInt (pyGet secret_dict "port")
         else Except.ok 3306) with
  | Except.error e => (Except.error e, [])
  | Except.ok port =>
    let dbname := lookup secret_dict "dbname"
    let cfg := get_ssl_config secret_dict
    match connect_and_authenticate ora secret_dict port dbname cfg.1 with
    | (Except.error e, tr) => (Except.error e, tr)
    | (Except.ok conn, tr) =>
      if conn.isSome || !cfg.2 then (Except.ok conn, tr)
      else
        match connect_and_authenticate ora secret_dict port dbname false with
        | (Except.error e, tr2) => (Except.error e, tr ++ tr2)
        | (Except.ok conn2, tr2) => (Except.ok conn2, tr ++ tr2)

/-- Models `get_connection` of the PostgreSQL variant: resolves the
port (default 5432), dbname (default "postgres") and sslmode (default
"prefer"), and performs a single connection attempt. -/
def get_connection_pg (ora : PgOracle) (secret_dict : SecretDict) :
    Except PyErr (Option Unit) × List Ev :=
  match (if hasKey secret_dict "port" then pyInt (pyGet secret_dict "port")
         else Except.ok 5432) with
  | Except.error e => (Except.error e, [])
  | Except.ok port =>
    let dbname := pyGetD secret_dict "dbname" (JVal.str "postgres")
    let sslmode := pyGetD secret_dict "sslmode" (JVal.str "prefer")
    match lookup secret_dict "host", lookup secret_dict "username",
          lookup secret_dict "password" with
    | some h, some u, some p =>
        (Except.ok (if ora h u p dbname port sslmode then some () else none),
         [Ev.attemptP h u p dbname port sslmode])
    | _, _, _ => (Except.error (PyErr.keyError "host or username or password"), [])

/-- Engine validation of the MariaDB `get_secret_dict`: the `engine`
key must be present and equal to the string "mariadb". -/
def mariaEngineOk (secret_dict : SecretDict) : Bool :=
  match lookup secret_dict "engine" with
  | some (JVal.str e) => e == "mariadb"
  | _ => false

/-- Engine validation of the PostgreSQL `get_secret_dict`: the
`engine` key must be one of the supported engine strings. -/
def pgEngineOk (secret_dict : SecretDict) : Bool :=
  match lookup secret_dict "engine" with
  | some (JVal.str e) => ["postgres", "aurora-postgresql", "postgresql"].contains e
  | _ => false

/-- Models `get_secret_dict` of the MariaDB variant for one staging
label: a not-found read raises the vault not-found condition, and a
payload is validated (engine tag, then the required fields host,
username, password, in order). -/
def get_secret_dict_maria : Fetch → Except PyErr SecretDict
  | Fetch.notFound => Except.error PyErr.resourceNotFound
  | Fetch.payload d =>
      if mariaEngineOk d then
        if hasKey d "host" then
          if hasKey d "username" then
            if hasKey d "password" then Except.ok d
            else Except.error (PyErr.keyError "password")
          else Except.error (PyErr.keyError "username")
        else Except.error (PyErr.keyError "host")
      else Except.error (PyErr.keyError "engine")

/-- Models `get_secret_dict` of the PostgreSQL variant for one staging
label, with the PostgreSQL engine validation. -/
def get_secret_dict_pg : Fetch → Except PyErr SecretDict
  | Fetch.notFound => Except.error PyErr.resourceNotFound
  | Fetch.payload d =>
      if pgEngineOk d then
        if hasKey d "host" then
          if hasKey d "username" then
            if hasKey d "password" then Except.ok d
            else Except.error (PyErr.keyError "password")
          else Except.error (PyErr.keyError "username")
        else Except.error (PyErr.keyError "host")
      else Except.error (PyErr.keyError "engine")

/-- Models the comparison `a[k] != b[k]` between two payloads, with
the `KeyError` Python raises when either key is missing. -/
def dictNe (a b : SecretDict) (k : String) : Except PyErr Bool :=
  match lookup a k, lookup b k with
  | some x, some y => Except.ok (decide (x ≠ y))
  | none, _ => Except.error (PyErr.keyError k)
  | some _, none => Except.error (PyErr.keyError k)

/-- Models `create_secret` of the PostgreSQL variant.  The current
payload is fetched and validated; if the pending payload for the token
already exists the step is a no-op; on the not-found condition a fresh
password `randomPass` is generated, the current payload is copied with
the new password (and a regenerated connection string when the
template holds one) and stored under the AWSPENDING label; any other
fetch failure propagates. -/
def create_secret_pg (currF pendF : Fetch) (randomPass : String) :
    Except PyErr Unit × List Ev :=
  match get_secret_dict_pg currF with
  | Except.error e => (Except.error e, [])
  | Except.ok current_dict =>
    match get_secret_dict_pg pendF with
    | Except.ok _ => (Except.ok (), [])
    | Except.error PyErr.resourceNotFound =>
        let d1 := setKey current_dict "password" (JVal.str randomPass)
        if hasKey d1 "connection_string" then
          match generate_connection_string_pg d1 randomPass with
          | Except.error e => (Except.error e, [Ev.genPassword])
          | Except.ok cs =>
              let d2 := setKey d1 "connection_string" (JVal.str cs)
              (Except.ok (), [Ev.genPassword, Ev.putSecret d2 ["AWSPENDING"]])
        else
          (Except.ok (), [Ev.genPassword, Ev.putSecret d1 ["AWSPENDING"]])
    | Except.error e => (Except.error e, [])

/-- Single quote character, used by the PostgreSQL password-change
statement. -/
def squote : String := (Char.ofNat 39).toString

/-- Models the string built by the PostgreSQL `set_secret` for the
password-change statement. -/
def alterRoleStmt (u p : JVal) : String :=
  "ALTER ROLE " ++ pyStr u ++ " WITH ENCRYPTED PASSWORD " ++ squote ++ pyStr p ++ squote

/-- The previous payload as mutated by the MariaDB `set_secret` before
the fallback login: the ssl entry is removed and, when the current
payload carries an ssl entry, replaced by the current one. -/
def sslFromCurrent (current_dict pvd : SecretDict) : SecretDict :=
  match lookup current_dict "ssl" with
  | some v => setKey (delKey pvd "ssl") "ssl" v
  | none => delKey pvd "ssl"

/-- Tail of the MariaDB `set_secret` after the login attempts: raises
when no session was obtained, otherwise executes the password-change
statement with the pending password, commits and closes the session. -/
def set_secret_maria_tail (conn : Option Unit) (tr : List Ev) (pending_dict : SecretDict) :
    Except PyErr Unit × List Ev :=
  match conn with
  | none =>
      (Except.error (PyErr.valueError
        "Unable to log into database with previous, current, or pending secret"), tr)
  | some _ =>
    match lookup pending_dict "password" with
    | some p =>
        (Except.ok (),
         tr ++ [Ev.execStmt "SET PASSWORD = PASSWORD(%s)" (some p), Ev.commit, Ev.closeConn])
    | none => (Except.error (PyErr.keyError "password"), tr)

/-- Models `set_secret` of the MariaDB variant.  The previous payload
is fetched with the not-found condition and `KeyError` both tolerated;
the current and pending payloads are required.  A session with the
pending credential short-circuits to success.  Otherwise the usernames
and hosts of current and pending are compared, a session is attempted
with the current credential, then with the previous credential after
replacing its `ssl` entry by the current one, re-validating previous
against pending. -/
def set_secret_maria (ora : MariaOracle) (prevF currF pendF : Fetch) :
    Except PyErr Unit × List Ev :=
  let previous_dict : Option SecretDict :=
    match get_secret_dict_maria prevF with
    | Except.ok d => some d
    | Except.error _ => none
  match get_secret_dict_maria currF with
  | Except.error e => (Except.error e, [])
  | Except.ok current_dict =>
  match get_secret_dict_maria pendF with
  | Except.error e => (Except.error e, [])
  | Except.ok pending_dict =>
  match get_connection_maria ora pending_dict with
  | (Except.error e, tr1) => (Except.error e, tr1)
  | (Except.ok (some _), tr1) => (Except.ok (), tr1 ++ [Ev.closeConn])
  | (Except.ok none, tr1) =>
    match dictNe current_dict pending_dict "username" with
    | Except.error e => (Except.error e, tr1)
    | Except.ok true =>
        (Except.error (PyErr.valueError
          "Attempting to modify user other than current user"), tr1)
    | Except.ok false =>
    match dictNe current_dict pending_dict "host" with
    | Except.error e => (Except.error e, tr1)
    | Except.ok true =>
        (Except.error (PyErr.valueError
          "Attempting to modify user for host other than current host"), tr1)
    | Except.ok false =>
    match get_connection_maria ora current_dict with
    | (Except.error e, tr2) => (Except.error e, tr1 ++ tr2)
    | (Except.ok connC, tr2) =>
      match connC, previous_dict with
      | none, some pvd =>
        let pvd2 := sslFromCurrent current_dict pvd
        match get_connection_maria ora pvd2 with
        | (Except.error e, tr3) => (Except.error e, tr1 ++ tr2 ++ tr3)
        | (Except.ok connP, tr3) =>
          match dictNe pvd2 pending_dict "username" with
          | Except.error e => (Except.error e, tr1 ++ tr2 ++ tr3)
          | Except.ok true =>
              (Except.error (PyErr.valueError
                "Attempting to modify user other than last valid user"), tr1 ++ tr2 ++ tr3)
          | Except.ok false =>
          match dictNe pvd2 pending_dict "host" with
          | Except.error e => (Except.error e, tr1 ++ tr2 ++ tr3)
          | Except.ok true =>
              (Except.error (PyErr.valueError
                "Attempting to modify user for host other than previous host"), tr1 ++ tr2 ++ tr3)
          | Except.ok false => set_secret_maria_tail connP (tr1 ++ tr2 ++ tr3) pending_dict
      | _, _ => set_secret_maria_tail connC (tr1 ++ tr2) pending_dict

/-- Tail of the PostgreSQL `set_secret` after the login attempts:
raises when no session was obtained, otherwise executes the formatted
ALTER ROLE statement, commits and closes the session. -/
def set_secret_pg_tail (conn : Option Unit) (tr : List Ev) (pending_dict : SecretDict) :
    Except PyErr Unit × List Ev :=
  match conn with
  | none =>
      (Except.error (PyErr.valueError
        "Unable to log into database with previous, current, or pending secret"), tr)
  | some _ =>
    match lookup pending_dict "username", lookup pending_dict "password" with
    | some u, some p =>
        (Except.ok (),
         tr ++ [Ev.execStmt (alterRoleStmt u p) none, Ev.commit, Ev.closeConn])
    | _, _ => (Except.error (PyErr.keyError "username or password"), tr)

/-- Models `set_secret` of the PostgreSQL variant.  The pending
payload is fetched first; a session with it short-circuits to success.
Otherwise the current payload is fetched and attempted; when that
fails, the previous payload is fetched (only the not-found condition
is tolerated) and attempted as is.  No username or host validation and
no ssl inheritance is performed in this variant. -/
def set_secret_pg (ora : PgOracle) (prevF currF pendF : Fetch) :
    Except PyErr Unit × List Ev :=
  match get_secret_dict_pg pendF with
  | Except.error e => (Except.error e, [])
  | Except.ok pending_dict =>
  match get_connection_pg ora pending_dict with
  | (Except.error e, tr1) => (Except.error e, tr1)
  | (Except.ok (some _), tr1) => (Except.ok (), tr1 ++ [Ev.closeConn])
  | (Except.ok none, tr1) =>
    match get_secret_dict_pg currF with
    | Except.error e => (Except.error e, tr1)
    | Except.ok current_dict =>
    match get_connection_pg ora current_dict with
    | (Except.error e, tr2) => (Except.error e, tr1 ++ tr2)
    | (Except.ok (some c), tr2) => set_secret_pg_tail (some c) (tr1 ++ tr2) pending_dict
    | (Except.ok none, tr2) =>
      match get_secret_dict_pg prevF with
      | Except.error PyErr.resourceNotFound => set_secret_pg_tail none (tr1 ++ tr2) pending_dict
      | Except.error e => (Except.error e, tr1 ++ tr2)
      | Except.ok previous_dict =>
        match get_connection_pg ora previous_dict with
        | (Except.error e, tr3) => (Except.error e, tr1 ++ tr2 ++ tr3)
        | (Except.ok connP, tr3) => set_secret_pg_tail connP (tr1 ++ tr2 ++ tr3) pending_dict

/-- Models `test_secret` of the MariaDB variant: a session must open
with the pending credential, then the probe statement runs, commits
and the session closes; otherwise the step raises. -/
def test_secret_maria (ora : MariaOracle) (pendF : Fetch) :
    Except PyErr Unit × List Ev :=
  match get_secret_dict_maria pendF with
  | Except.error e => (Except.error e, [])
  | Except.ok d =>
    match get_connection_maria ora d with
    | (Except.error e, tr) => (Except.error e, tr)
    | (Except.ok (some _), tr) =>
        (Except.ok (), tr ++ [Ev.execStmt "SELECT NOW()" none, Ev.commit, Ev.closeConn])
    | (Except.ok none, tr) =>
        (Except.error (PyErr.valueError
          "Unable to log into database with pending secret"), tr)

/-- Models `test_secret` of the PostgreSQL variant. -/
def test_secret_pg (ora : PgOracle) (pendF : Fetch) :
    Except PyErr Unit × List Ev :=
  match get_secret_dict_pg pendF with
  | Except.error e => (Except.error e, [])
  | Except.ok d =>
    match get_connection_pg ora d with
    | (Except.error e, tr) => (Except.error e, tr)
    | (Except.ok (some _), tr) =>
        (Except.ok (), tr ++ [Ev.execStmt "SELECT NOW()" none, Ev.commit, Ev.closeConn])
    | (Except.ok none, tr) =>
        (Except.error (PyErr.valueError
          "Unable to log into database with pending secret"), tr)

/-- Models `create_secret` of the MariaDB variant (same control flow
as the PostgreSQL variant with the MariaDB validation and connection
string formatter). -/
def create_secret_maria (currF pendF : Fetch) (randomPass : String) :
    Except PyErr Unit × List Ev :=
  match get_secret_dict_maria currF with
  | Except.error e => (Except.error e, [])
  | Except.ok current_dict =>
    match get_secret_dict_maria pendF with
    | Except.ok _ => (Except.ok (), [])
    | Except.error PyErr.resourceNotFound =>
        let d1 := setKey current_dict "password" (JVal.str randomPass)
        if hasKey d1 "connection_string" then
          match generate_connection_string_maria d1 randomPass with
          | Except.error e => (Except.error e, [Ev.genPassword])
          | Except.ok cs =>
              let d2 := setKey d1 "connection_string" (JVal.str cs)
              (Except.ok (), [Ev.genPassword, Ev.putSecret d2 ["AWSPENDING"]])
        else
          (Except.ok (), [Ev.genPassword, Ev.putSecret d1 ["AWSPENDING"]])
    | Except.error e => (Except.error e, [])

/-- The four rotation step names the dispatcher recognizes. -/
inductive StepName where
  | createSecret
  | setSecret
  | testSecret
  | finishSecret
  deriving DecidableEq

/-- Outcome of the dispatcher guard of `lambda_handler`: a fatal
error, a no-op success, or a dispatch to one of the step handlers. -/
inductive DispatchOutcome where
  | failed (msg : String)
  | noop
  | dispatched (s : StepName)
  deriving DecidableEq

/-- Version metadata returned by the vault `describe_secret` call:
whether the metadata carries a `RotationEnabled` entry (and its value)
and the map from version tokens to their staging labels. -/
structure Metadata where
  rotationEnabled : Option Bool
  versions : List (String × List String)
  deriving DecidableEq

/-- Lookup of the staging labels of one token in the version map. -/
def lookupStages : List (String × List String) → String → Option (List String)
  | [], _ => none
  | (k, v) :: t, key => if k = key then some v else lookupStages t key

/-- Models the guard and dispatch logic of `lambda_handler` (the code
is identical in the two engine variants): rotation must not be
disabled, the token must have a staging label, a token already labeled
AWSCURRENT is a no-op success, a token not labeled AWSPENDING is an
error, and otherwise the step name selects the handler, any other name
being an error. -/
def lambda_handler_dispatch (md : Metadata) (token step : String) : DispatchOutcome :=
  if md.rotationEnabled = some false then
    DispatchOutcome.failed "Secret is not enabled for rotation"
  else
    match lookupStages md.versions token with
    | none => DispatchOutcome.failed "Secret version has no stage for rotation of secret"
    | some stages =>
      if stages.contains "AWSCURRENT" then DispatchOutcome.noop
      else if !stages.contains "AWSPENDING" then
        DispatchOutcome.failed "Secret version not set as AWSPENDING for rotation of secret"
      else if step = "createSecret" then DispatchOutcome.dispatched StepName.createSecret
      else if step = "setSecret" then DispatchOutcome.dispatched StepName.setSecret
      else if step = "testSecret" then DispatchOutcome.dispatched StepName.testSecret
      else if step = "finishSecret" then DispatchOutcome.dispatched StepName.finishSecret
      else DispatchOutcome.failed "Invalid step parameter"

/-- Version-to-stages map of the vault, in dictionary iteration
order. -/
abbrev Versions := List (String × List String)

/-- Scan of `finish_secret`: the first version in iteration order that
carries the AWSCURRENT label. -/
def findCurrent : Versions → Option String
  | [] => none
  | (t, ls) :: rest =>
      if ls.contains "AWSCURRENT" then some t else findCurrent rest

/-- Modelled from the spec: the vault operation
`updateSecretVersionStage(id, stage, moveToToken?, removeFromToken?)`
(external to this repository, spec section 6), which removes the
staging label from the one version and attaches it to the other. -/
def update_secret_version_stage (vs : Versions) (stage : String)
    (moveTo removeFrom : Option String) : Versions :=
  let vs1 :=
    match removeFrom with
    | some tok =>
        vs.map (fun p => if p.1 = tok then (p.1, p.2.filter (fun l => l != stage)) else p)
    | none => vs
  match moveTo with
  | some tok =>
      vs1.map (fun p =>
        if p.1 = tok then (p.1, if p.2.contains stage then p.2 else p.2 ++ [stage]) else p)
  | none => vs1

/-- Models `finish_secret` (identical in the two engine variants) as a
transformer of the version-to-stages map: scan for the version holding
AWSCURRENT; if it is the token, return unchanged; otherwise move
AWSCURRENT onto the token (removing it from that version) and remove
AWSPENDING from the token. -/
def finish_secret (vs : Versions) (token : String) : Versions :=
  match findCurrent vs with
  | some v =>
      if v = token then vs
      else
        let vs1 := update_secret_version_stage vs "AWSCURRENT" (some token) (some v)
        update_secret_version_stage vs1 "AWSPENDING" none (some token)
  | none =>
      let vs1 := update_secret_version_stage vs "AWSCURRENT" (some token) none
      update_secret_version_stage vs1 "AWSPENDING" none (some token)

/-- Number of versions carrying the AWSCURRENT label. -/
def countCurrent (vs : Versions) : Nat :=
  (vs.filter (fun p => p.2.contains "AWSCURRENT")).length


/-- Per-entry effect of the moving branch of `finish_secret`: the
token gains AWSCURRENT and loses AWSPENDING, the old current version
`v` loses AWSCURRENT, every other version is unchanged. -/
def finishMoveEntry (token v : String) (p : String × List String) : String × List String :=
  if p.1 = token then
    (p.1, (if p.2.contains "AWSCURRENT" then p.2 else p.2 ++ ["AWSCURRENT"]).filter
      (fun l => l != "AWSPENDING"))
  else if p.1 = v then (p.1, p.2.filter (fun l => l != "AWSCURRENT"))
  else p

/-- Character-list prefix test used by the substring check. -/
def leadsWith : List Char → List Char → Bool
  | _, [] => true
  | [], _ :: _ => false
  | c :: cs, p :: ps => c == p && leadsWith cs ps

/-- Substring occurrence test on character lists. -/
def hasChunk : List Char → List Char → Bool
  | [], pat => pat.isEmpty
  | c :: cs, pat => leadsWith (c :: cs) pat || hasChunk cs pat

/-- Decides whether `pat` occurs as a contiguous substring of `s`. -/
def strContains (s pat : String) : Bool :=
  hasChunk s.data pat.data

/-! Helper lemmas about the dictionary operations. -/

theorem lookup_setKey_self (d : SecretDict) (k : String) (v : JVal) :
    lookup (setKey d k v) k = some v := by
  induction d with
  | nil => simp [setKey, lookup]
  | cons p t ih =>
      obtain ⟨k0, v0⟩ := p
      by_cases h : k0 = k
      · simp [setKey, h, lookup]
      · simp [setKey, h, lookup, ih]

theorem lookup_setKey_ne (d : SecretDict) (k k2 : String) (v : JVal) (h : k2 ≠ k) :
    lookup (setKey d k v) k2 = lookup d k2 := by
  induction d with
  | nil => simp [setKey, lookup, Ne.symm h]
  | cons p t ih =>
      obtain ⟨k0, v0⟩ := p
      by_cases h0 : k0 = k
      · subst h0
        simp [setKey, lookup, Ne.symm h]
      · simp [setKey, h0, lookup, ih]

theorem lookup_delKey_self (d : SecretDict) (k : String) :
    lookup (delKey d k) k = none := by
  induction d with
  | nil => simp [delKey, lookup]
  | cons p t ih =>
      obtain ⟨k0, v0⟩ := p
      by_cases h0 : k0 = k
      · simpa [delKey, h0] using ih
      · simpa [delKey, h0, lookup, Ne.symm h0] using ih

theorem lookup_delKey_ne (d : SecretDict) (k k2 : String) (h : k2 ≠ k) :
    lookup (delKey d k) k2 = lookup d k2 := by
  induction d with
  | nil => simp [delKey]
  | cons p t ih =>
      obtain ⟨k0, v0⟩ := p
      by_cases h0 : k0 = k
      · subst h0
        simpa [delKey, lookup, Ne.symm h] using ih
      · simp [delKey, h0, lookup, ih]

/-! Inversion lemmas for payload validation. -/

theorem get_secret_dict_maria_ok {f : Fetch} {d : SecretDict}
    (h : get_secret_dict_maria f = Except.ok d) :
    f = Fetch.payload d ∧ mariaEngineOk d = true ∧ hasKey d "host" = true ∧
      hasKey d "username" = true ∧ hasKey d "password" = true := by
  cases f with
  | notFound => simp [get_secret_dict_maria] at h
  | payload d0 =>
      simp only [get_secret_dict_maria] at h
      split_ifs at h with h1 h2 h3 h4 <;> simp_all

theorem get_secret_dict_pg_ok {f : Fetch} {d : SecretDict}
    (h : get_secret_dict_pg f = Except.ok d) :
    f = Fetch.payload d ∧ pgEngineOk d = true ∧ hasKey d "host" = true ∧
      hasKey d "username" = true ∧ hasKey d "password" = true := by
  cases f with
  | notFound => simp [get_secret_dict_pg] at h
  | payload d0 =>
      simp only [get_secret_dict_pg] at h
      split_ifs at h with h1 h2 h3 h4 <;> simp_all

theorem get_secret_dict_maria_payload_ok {d : SecretDict}
    (h1 : mariaEngineOk d = true) (h2 : hasKey d "host" = true)
    (h3 : hasKey d "username" = true) (h4 : hasKey d "password" = true) :
    get_secret_dict_maria (Fetch.payload d) = Except.ok d := by
  simp [get_secret_dict_maria, h1, h2, h3, h4]

theorem get_secret_dict_pg_payload_ok {d : SecretDict}
    (h1 : pgEngineOk d = true) (h2 : hasKey d "host" = true)
    (h3 : hasKey d "username" = true) (h4 : hasKey d "password" = true) :
    get_secret_dict_pg (Fetch.payload d) = Except.ok d := by
  simp [get_secret_dict_pg, h1, h2, h3, h4]

/-! Behavior of the connection resolvers, conditioned on the presence
of the credentials and a resolvable port. -/

theorem get_connection_maria_spec (ora : MariaOracle) (d : SecretDict)
    (h u p : JVal) (port : Int)
    (hh : lookup d "host" = some h) (hu : lookup d "username" = some u)
    (hp : lookup d "password" = some p)
    (hport : (if hasKey d "port" then pyInt (pyGet d "port") else Except.ok 3306) =
      Except.ok port) :
    get_connection_maria ora d =
      (if ora h u p port (lookup d "dbname") (get_ssl_config d).1 then
        (Except.ok (some ()),
         [Ev.attemptM h u p port (lookup d "dbname") (get_ssl_config d).1])
       else if (get_ssl_config d).2 then
        (Except.ok (if ora h u p port (lookup d "dbname") false then some () else none),
         [Ev.attemptM h u p port (lookup d "dbname") (get_ssl_config d).1,
          Ev.attemptM h u p port (lookup d "dbname") false])
       else
        (Except.ok none,
         [Ev.attemptM h u p port (lookup d "dbname") (get_ssl_config d).1])) := by
  unfold get_connection_maria
  rw [hport]
  simp only [connect_and_authenticate, hh, hu, hp]
  cases hora : ora h u p port (lookup d "dbname") (get_ssl_config d).1 <;>
    cases hfb : (get_ssl_config d).2 <;>
      simp [hora, hfb]

theorem get_connection_pg_spec (ora : PgOracle) (d : SecretDict)
    (h u p : JVal) (port : Int)
    (hh : lookup d "host" = some h) (hu : lookup d "username" = some u)
    (hp : lookup d "password" = some p)
    (hport : (if hasKey d "port" then pyInt (pyGet d "port") else Except.ok 5432) =
      Except.ok port) :
    get_connection_pg ora d =
      (Except.ok (if ora h u p (pyGetD d "dbname" (JVal.str "postgres")) port
          (pyGetD d "sslmode" (JVal.str "prefer")) then some () else none),
       [Ev.attemptP h u p (pyGetD d "dbname" (JVal.str "postgres")) port
          (pyGetD d "sslmode" (JVal.str "prefer"))]) := by
  unfold get_connection_pg
  rw [hport]
  simp only [hh, hu, hp]

theorem get_connection_maria_trace (ora : MariaOracle) (d : SecretDict) :
    ∀ ev ∈ (get_connection_maria ora d).2,
      ∃ h u p port db ssl, ev = Ev.attemptM h u p port db ssl ∧
        lookup d "host" = some h ∧ lookup d "username" = some u ∧
        lookup d "password" = some p := by
  intro ev hev
  cases hport : (if hasKey d "port" then pyInt (pyGet d "port") else Except.ok 3306) with
  | error e =>
      rw [show get_connection_maria ora d = (Except.error e, []) by
        unfold get_connection_maria; rw [hport]] at hev
      simp at hev
  | ok port =>
      cases hh : lookup d "host" with
      | none =>
          simp [get_connection_maria, hport, connect_and_authenticate, hh] at hev
      | some h =>
        cases hu : lookup d "username" with
        | none =>
            simp [get_connection_maria, hport, connect_and_authenticate, hh, hu] at hev
        | some u =>
          cases hp : lookup d "password" with
          | none =>
              simp [get_connection_maria, hport, connect_and_authenticate, hh, hu, hp] at hev
          | some p =>
              rw [get_connection_maria_spec ora d h u p port hh hu hp hport] at hev
              by_cases h1 : ora h u p port (lookup d "dbname") (get_ssl_config d).1 = true
              · simp [h1] at hev
                exact ⟨h, u, p, _, _, _, hev, rfl, rfl, rfl⟩
              · by_cases h2 : (get_ssl_config d).2 = true
                · simp [h1, h2] at hev
                  rcases hev with hev | hev
                  · exact ⟨h, u, p, _, _, _, hev, rfl, rfl, rfl⟩
                  · exact ⟨h, u, p, _, _, _, hev, rfl, rfl, rfl⟩
                · simp [h1, h2] at hev
                  exact ⟨h, u, p, _, _, _, hev, rfl, rfl, rfl⟩

theorem get_connection_pg_trace (ora : PgOracle) (d : SecretDict) :
    ∀ ev ∈ (get_connection_pg ora d).2,
      ∃ h u p db port sm, ev = Ev.attemptP h u p db port sm ∧
        lookup d "host" = some h ∧ lookup d "username" = some u ∧
        lookup d "password" = some p := by
  intro ev hev
  cases hport : (if hasKey d "port" then pyInt (pyGet d "port") else Except.ok 5432) with
  | error e =>
      rw [show get_connection_pg ora d = (Except.error e, []) by
        unfold get_connection_pg; rw [hport]] at hev
      simp at hev
  | ok port =>
      cases hh : lookup d "host" with
      | none =>
          simp [get_connection_pg, hport, hh] at hev
      | some h =>
        cases hu : lookup d "username" with
        | none =>
            simp [get_connection_pg, hport, hh, hu] at hev
        | some u =>
          cases hp : lookup d "password" with
          | none =>
              simp [get_connection_pg, hport, hh, hu, hp] at hev
          | some p =>
              rw [get_connection_pg_spec ora d h u p port hh hu hp hport] at hev
              simp at hev
              exact ⟨h, u, p, _, _, _, hev, rfl, rfl, rfl⟩

theorem get_connection_maria_no_exec (ora : MariaOracle) (d : SecretDict) :
    ∀ ev ∈ (get_connection_maria ora d).2, isExecEv ev = false ∧ isPutEv ev = false := by
  intro ev hev
  obtain ⟨h, u, p, port, db, ssl, rfl, -, -, -⟩ := get_connection_maria_trace ora d ev hev
  exact ⟨rfl, rfl⟩

theorem get_connection_pg_no_exec (ora : PgOracle) (d : SecretDict) :
    ∀ ev ∈ (get_connection_pg ora d).2, isExecEv ev = false ∧ isPutEv ev = false := by
  intro ev hev
  obtain ⟨h, u, p, db, port, sm, rfl, -, -, -⟩ := get_connection_pg_trace ora d ev hev
  exact ⟨rfl, rfl⟩

theorem get_connection_maria_not_some (ora : MariaOracle) (d : SecretDict) (h u p : JVal)
    (hh : lookup d "host" = some h) (hu : lookup d "username" = some u)
    (hp : lookup d "password" = some p)
    (hora : ∀ port db ssl, ora h u p port db ssl = false) :
    (get_connection_maria ora d).1 = Except.ok none ∨
      ∃ e, (get_connection_maria ora d).1 = Except.error e := by
  cases hport : (if hasKey d "port" then pyInt (pyGet d "port") else Except.ok 3306) with
  | error e =>
      right
      exact ⟨e, by unfold get_connection_maria; rw [hport]⟩
  | ok port =>
      left
      rw [get_connection_maria_spec ora d h u p port hh hu hp hport]
      cases hfb : (get_ssl_config d).2 <;> simp [hora, hfb]

theorem get_connection_pg_not_some (ora : PgOracle) (d : SecretDict) (h u p : JVal)
    (hh : lookup d "host" = some h) (hu : lookup d "username" = some u)
    (hp : lookup d "password" = some p)
    (hora : ∀ db port sm, ora h u p db port sm = false) :
    (get_connection_pg ora d).1 = Except.ok none ∨
      ∃ e, (get_connection_pg ora d).1 = Except.error e := by
  cases hport : (if hasKey d "port" then pyInt (pyGet d "port") else Except.ok 5432) with
  | error e =>
      right
      exact ⟨e, by unfold get_connection_pg; rw [hport]⟩
  | ok port =>
      left
      rw [get_connection_pg_spec ora d h u p port hh hu hp hport]
      simp [hora]

/-! Supporting lemmas for the finish-secret step. -/

theorem mem_filter_ne (l : List String) (a b : String) (hab : a ≠ b) :
    (a ∈ l.filter (fun x => x != b)) ↔ a ∈ l := by
  simp [List.mem_filter, hab]

theorem not_mem_filter_self (l : List String) (b : String) :
    b ∉ l.filter (fun x => x != b) := by
  simp [List.mem_filter]

theorem mem_add_self (l : List String) (b : String) :
    b ∈ (if l.contains b then l else l ++ [b]) := by
  by_cases h : b ∈ l
  · simp [h]
  · simp [h]

theorem findCurrent_none_countCurrent (vs : Versions)
    (h : findCurrent vs = none) : countCurrent vs = 0 := by
  induction vs with
  | nil => rfl
  | cons p t ih =>
      obtain ⟨k, ls⟩ := p
      by_cases hc : "AWSCURRENT" ∈ ls
      · simp [findCurrent, hc] at h
      · have h2 : findCurrent t = none := by
          simpa [findCurrent, hc] using h
        simpa [countCurrent, List.filter_cons, hc] using ih h2

theorem findCurrent_some_mem (vs : Versions) (v : String)
    (h : findCurrent vs = some v) :
    ∃ ls, (v, ls) ∈ vs ∧ "AWSCURRENT" ∈ ls := by
  induction vs with
  | nil => simp [findCurrent] at h
  | cons p t ih =>
      obtain ⟨k, ls⟩ := p
      by_cases hc : "AWSCURRENT" ∈ ls
      · have hk : k = v := by simpa [findCurrent, hc] using h
        subst hk
        exact ⟨ls, List.mem_cons_self _ _, hc⟩
      · have h2 : findCurrent t = some v := by
          simpa [findCurrent, hc] using h
        obtain ⟨ls2, hmem, hc2⟩ := ih h2
        exact ⟨ls2, List.mem_cons_of_mem _ hmem, hc2⟩

theorem filter_length_one_unique {α : Type} (P : α → Bool) (l : List α) (x : α)
    (hlen : (l.filter P).length = 1) (hx : x ∈ l) (hPx : P x = true) :
    ∀ y ∈ l, P y = true → y = x := by
  intro y hy hPy
  obtain ⟨a, ha⟩ := List.length_eq_one.mp hlen
  have hx2 : x ∈ l.filter P := List.mem_filter.mpr ⟨hx, hPx⟩
  have hy2 : y ∈ l.filter P := List.mem_filter.mpr ⟨hy, hPy⟩
  rw [ha] at hx2 hy2
  simp at hx2 hy2
  rw [hx2, hy2]

theorem filter_key_length_zero (vs : Versions) (token : String)
    (h : token ∉ vs.map Prod.fst) :
    (vs.filter (fun p => p.1 == token)).length = 0 := by
  induction vs with
  | nil => rfl
  | cons p t ih =>
      rw [List.map_cons] at h
      have h1 : ¬ token = p.1 := fun hh => h (hh ▸ List.mem_cons_self _ _)
      have h2 : token ∉ t.map Prod.fst := fun hh => h (List.mem_cons_of_mem _ hh)
      have hp : (p.1 == token) = false := by
        simp only [beq_eq_false_iff_ne]
        exact fun hh => h1 hh.symm
      rw [List.filter_cons]
      simp only [hp, Bool.false_eq_true, if_false]
      exact ih h2

theorem filter_key_length_one (vs : Versions) (token : String)
    (hnd : (vs.map Prod.fst).Nodup) (htok : token ∈ vs.map Prod.fst) :
    (vs.filter (fun p => p.1 == token)).length = 1 := by
  induction vs with
  | nil => simp at htok
  | cons p t ih =>
      simp only [List.map_cons, List.nodup_cons] at hnd
      rw [List.map_cons] at htok
      rcases List.mem_cons.mp htok with h1 | h1
      · have hp : (p.1 == token) = true := by
          rw [h1]
          simp
        rw [List.filter_cons]
        simp only [hp, if_true, List.length_cons]
        have hz : token ∉ t.map Prod.fst := by
          rw [h1]
          exact hnd.1
        rw [filter_key_length_zero t token hz]
      · by_cases hp : p.1 = token
        · exact absurd (hp ▸ h1) hnd.1
        · have hp2 : (p.1 == token) = false := by simp [hp]
          rw [List.filter_cons]
          simp only [hp2, Bool.false_eq_true, if_false]
          exact ih hnd.2 h1

theorem findCurrent_unique_key (vs : Versions) (token : String)
    (htok : token ∈ vs.map Prod.fst)
    (hiff : ∀ p ∈ vs, ("AWSCURRENT" ∈ p.2 ↔ p.1 = token)) :
    findCurrent vs = some token := by
  induction vs with
  | nil => simp at htok
  | cons p t ih =>
      obtain ⟨k, ls⟩ := p
      by_cases hc : "AWSCURRENT" ∈ ls
      · have hk : k = token := (hiff (k, ls) (List.mem_cons_self _ _)).mp hc
        simp [findCurrent, hc, hk]
      · have hk : k ≠ token := by
          intro hk
          exact hc ((hiff (k, ls) (List.mem_cons_self _ _)).mpr hk)
        have htok2 : token ∈ t.map Prod.fst := by
          rw [List.map_cons] at htok
          rcases List.mem_cons.mp htok with h1 | h1
          · exact absurd h1.symm hk
          · exact h1
        have hiff2 : ∀ p ∈ t, ("AWSCURRENT" ∈ p.2 ↔ p.1 = token) :=
          fun p hp => hiff p (List.mem_cons_of_mem _ hp)
        simp [findCurrent, hc, ih htok2 hiff2]

theorem contains_eq_false (l : List String) (a : String) (h : a ∉ l) :
    l.contains a = false := by
  cases hc : l.contains a
  · rfl
  · exact absurd (List.elem_iff.mp hc) h

theorem contains_eq_true (l : List String) (a : String) (h : a ∈ l) :
    l.contains a = true :=
  List.elem_iff.mpr h

theorem finishMoveEntry_fst (token v : String) (p : String × List String) :
    (finishMoveEntry token v p).1 = p.1 := by
  unfold finishMoveEntry
  split
  · rfl
  · split
    · rfl
    · rfl

theorem finishMoveEntry_contains (token v : String) (p : String × List String) :
    ((finishMoveEntry token v p).2.contains "AWSCURRENT") =
      (if p.1 = token then true
       else if p.1 = v then false
       else p.2.contains "AWSCURRENT") := by
  unfold finishMoveEntry
  by_cases h1 : p.1 = token
  · rw [if_pos h1, if_pos h1]
    exact contains_eq_true _ _
      ((mem_filter_ne _ "AWSCURRENT" "AWSPENDING" (by decide)).mpr (mem_add_self p.2 "AWSCURRENT"))
  · rw [if_neg h1, if_neg h1]
    by_cases h2 : p.1 = v
    · rw [if_pos h2, if_pos h2]
      exact contains_eq_false _ _ (not_mem_filter_self p.2 "AWSCURRENT")
    · rw [if_neg h2, if_neg h2]

theorem finish_secret_moves (vs : Versions) (token v : String) (hv : v ≠ token)
    (hfind : findCurrent vs = some v) :
    finish_secret vs token = vs.map (finishMoveEntry token v) := by
  unfold finish_secret
  rw [hfind]
  simp only [if_neg hv, update_secret_version_stage, List.map_map]
  apply List.map_congr_left
  intro p _
  simp only [Function.comp]
  by_cases h1 : p.1 = token
  · have h2 : ¬ p.1 = v := fun hh => hv (hh ▸ h1)
    simp [finishMoveEntry, h1, h2, Ne.symm hv]
  · by_cases h2 : p.1 = v
    · simp [finishMoveEntry, h1, h2, hv]
    · simp [finishMoveEntry, h1, h2]

theorem finish_secret_noop (vs : Versions) (token : String)
    (h : findCurrent vs = some token) : finish_secret vs token = vs := by
  unfold finish_secret
  rw [h]
  simp

/-- Claim C6: the finish-secret step is idempotent and preserves the
uniqueness of the AWSCURRENT label.  For a version map with distinct
tokens, containing the finished token, and exactly one version labeled
AWSCURRENT, one invocation leaves exactly one version labeled
AWSCURRENT (if the token already holds the label nothing moves), and a
second invocation for the same token is a no-op, so finish-secret
called twice succeeds both times and exactly one version stays
AWSCURRENT. -/
theorem claim_C6_finish_secret_idempotent (vs : Versions) (token : String)
    (hnd : (vs.map Prod.fst).Nodup) (htok : token ∈ vs.map Prod.fst)
    (hone : countCurrent vs = 1) :
    countCurrent (finish_secret vs token) = 1 ∧
      finish_secret (finish_secret vs token) token = finish_secret vs token := by
  cases hfind : findCurrent vs with
  | none =>
      have h0 := findCurrent_none_countCurrent vs hfind
      omega
  | some v =>
      by_cases hv : v = token
      · have h1 : finish_secret vs token = vs := finish_secret_noop vs token (hv ▸ hfind)
        rw [h1]
        exact ⟨hone, h1⟩
      · obtain ⟨ls, hvmem, hccmem⟩ := findCurrent_some_mem vs v hfind
        have hmoves := finish_secret_moves vs token v hv hfind
        have hOnly : ∀ y ∈ vs, (y.2.contains "AWSCURRENT") = true → y = (v, ls) :=
          filter_length_one_unique (fun p => p.2.contains "AWSCURRENT") vs (v, ls)
            (by simpa [countCurrent] using hone) hvmem (contains_eq_true _ _ hccmem)
        have hkey : ∀ p ∈ vs,
            ((finishMoveEntry token v p).2.contains "AWSCURRENT") = (p.1 == token) := by
          intro p hp
          rw [finishMoveEntry_contains]
          by_cases h1 : p.1 = token
          · rw [if_pos h1]
            exact ((by simp [h1]) : (p.1 == token) = true).symm
          · by_cases h2 : p.1 = v
            · rw [if_neg h1, if_pos h2]
              exact ((by simp [h1]) : (p.1 == token) = false).symm
            · have hc : p.2.contains "AWSCURRENT" = false := by
                cases hcc : p.2.contains "AWSCURRENT"
                · rfl
                · exact absurd (congrArg Prod.fst (hOnly p hp hcc)) h2
              rw [if_neg h1, if_neg h2, hc]
              exact ((by simp [h1]) : (p.1 == token) = false).symm
        have hcount : countCurrent (vs.map (finishMoveEntry token v)) = 1 := by
          unfold countCurrent
          rw [List.filter_map, List.length_map]
          have hX : ∀ p ∈ vs,
              ((fun q : String × List String => q.2.contains "AWSCURRENT") ∘
                finishMoveEntry token v) p =
              (fun q : String × List String => q.1 == token) p :=
            fun p hp => hkey p hp
          rw [List.filter_congr hX]
          exact filter_key_length_one vs token hnd htok
        have hkeys : (vs.map (finishMoveEntry token v)).map Prod.fst = vs.map Prod.fst := by
          rw [List.map_map]
          exact List.map_congr_left (fun p _ => finishMoveEntry_fst token v p)
        have htok2 : token ∈ (vs.map (finishMoveEntry token v)).map Prod.fst := by
          rw [hkeys]
          exact htok
        have hiff2 : ∀ q ∈ vs.map (finishMoveEntry token v),
            ("AWSCURRENT" ∈ q.2 ↔ q.1 = token) := by
          intro q hq
          obtain ⟨p, hp, rfl⟩ := List.mem_map.mp hq
          constructor
          · intro hm
            have hb := hkey p hp
            rw [contains_eq_true _ _ hm] at hb
            have hpt : p.1 = token := by simpa using hb.symm
            rw [finishMoveEntry_fst]
            exact hpt
          · intro hq1
            rw [finishMoveEntry_fst] at hq1
            have hb := hkey p hp
            rw [show (p.1 == token) = true by simpa using hq1] at hb
            exact List.elem_iff.mp hb
        have hfind2 : findCurrent (vs.map (finishMoveEntry token v)) = some token :=
          findCurrent_unique_key _ token htok2 hiff2
        rw [hmoves]
        exact ⟨hcount, finish_secret_noop _ token hfind2⟩

/-- Witness for claim C6: a concrete two-version vault, where version
v1 is AWSCURRENT and v2 is AWSPENDING, finished for token v2. -/
theorem claim_C6_finish_secret_idempotent_witness :
    countCurrent (finish_secret [("v1", ["AWSCURRENT"]), ("v2", ["AWSPENDING"])] "v2") = 1 ∧
      finish_secret (finish_secret [("v1", ["AWSCURRENT"]), ("v2", ["AWSPENDING"])] "v2") "v2" =
        finish_secret [("v1", ["AWSCURRENT"]), ("v2", ["AWSPENDING"])] "v2" :=
  claim_C6_finish_secret_idempotent [("v1", ["AWSCURRENT"]), ("v2", ["AWSPENDING"])] "v2"
    (by decide) (by decide) (by decide)

/-- Claim C2: for every invocation, the dispatcher fails when rotation
is disabled on the secret or when the token has no staging label; it
returns success without dispatching when the token is labeled
AWSCURRENT; it fails when the token is labeled neither AWSCURRENT nor
AWSPENDING; and when the token is labeled AWSPENDING (and not
AWSCURRENT) the four known step names dispatch to their handlers while
any unrecognized step name is a fatal error. -/
theorem claim_C2_dispatcher_guard (md : Metadata) (token step : String) :
    (md.rotationEnabled = some false →
      ∃ m, lambda_handler_dispatch md token step = DispatchOutcome.failed m) ∧
    (md.rotationEnabled ≠ some false →
      lookupStages md.versions token = none →
      ∃ m, lambda_handler_dispatch md token step = DispatchOutcome.failed m) ∧
    (∀ stages, md.rotationEnabled ≠ some false →
      lookupStages md.versions token = some stages →
      "AWSCURRENT" ∈ stages →
      lambda_handler_dispatch md token step = DispatchOutcome.noop) ∧
    (∀ stages, md.rotationEnabled ≠ some false →
      lookupStages md.versions token = some stages →
      "AWSCURRENT" ∉ stages →
      "AWSPENDING" ∉ stages →
      ∃ m, lambda_handler_dispatch md token step = DispatchOutcome.failed m) ∧
    (∀ stages, md.rotationEnabled ≠ some false →
      lookupStages md.versions token = some stages →
      "AWSCURRENT" ∉ stages →
      "AWSPENDING" ∈ stages →
      ((step = "createSecret" →
          lambda_handler_dispatch md token step =
            DispatchOutcome.dispatched StepName.createSecret) ∧
       (step = "setSecret" →
          lambda_handler_dispatch md token step =
            DispatchOutcome.dispatched StepName.setSecret) ∧
       (step = "testSecret" →
          lambda_handler_dispatch md token step =
            DispatchOutcome.dispatched StepName.testSecret) ∧
       (step = "finishSecret" →
          lambda_handler_dispatch md token step =
            DispatchOutcome.dispatched StepName.finishSecret) ∧
       (step ≠ "createSecret" → step ≠ "setSecret" → step ≠ "testSecret" →
        step ≠ "finishSecret" →
          ∃ m, lambda_handler_dispatch md token step = DispatchOutcome.failed m))) := by
  refine ⟨?_, ?_, ?_, ?_, ?_⟩
  · intro h
    exact ⟨"Secret is not enabled for rotation", by simp [lambda_handler_dispatch, h]⟩
  · intro h1 h2
    exact ⟨"Secret version has no stage for rotation of secret",
      by simp [lambda_handler_dispatch, h1, h2]⟩
  · intro stages h1 h2 h3
    simp [lambda_handler_dispatch, h1, h2, h3]
  · intro stages h1 h2 h3 h4
    exact ⟨"Secret version not set as AWSPENDING for rotation of secret",
      by simp [lambda_handler_dispatch, h1, h2, h3, h4]⟩
  · intro stages h1 h2 h3 h4
    refine ⟨?_, ?_, ?_, ?_, ?_⟩
    · intro h5
      simp [lambda_handler_dispatch, h1, h2, h3, h4, h5]
    · intro h5
      simp [lambda_handler_dispatch, h1, h2, h3, h4, h5]
    · intro h5
      simp [lambda_handler_dispatch, h1, h2, h3, h4, h5]
    · intro h5
      simp [lambda_handler_dispatch, h1, h2, h3, h4, h5]
    · intro h5 h6 h7 h8
      exact ⟨"Invalid step parameter",
        by simp [lambda_handler_dispatch, h1, h2, h3, h4, h5, h6, h7, h8]⟩

/-- Witness for claim C2: one concrete metadata per scenario, with a
pending token dispatching setSecret, a current token a no-op, an
unknown step failing, disabled rotation failing, and an unknown token
failing. -/
theorem claim_C2_dispatcher_guard_witness :
    lambda_handler_dispatch
      (Metadata.mk (some true) [("t1", ["AWSCURRENT"]), ("t2", ["AWSPENDING"])]) "t2"
      "setSecret" = DispatchOutcome.dispatched StepName.setSecret ∧
    lambda_handler_dispatch
      (Metadata.mk (some true) [("t1", ["AWSCURRENT"]), ("t2", ["AWSPENDING"])]) "t1"
      "setSecret" = DispatchOutcome.noop ∧
    (∃ m, lambda_handler_dispatch
      (Metadata.mk (some true) [("t1", ["AWSCURRENT"]), ("t2", ["AWSPENDING"])]) "t2"
      "rotateSecret" = DispatchOutcome.failed m) ∧
    (∃ m, lambda_handler_dispatch
      (Metadata.mk (some false) [("t1", ["AWSCURRENT"]), ("t2", ["AWSPENDING"])]) "t2"
      "setSecret" = DispatchOutcome.failed m) ∧
    (∃ m, lambda_handler_dispatch
      (Metadata.mk (some true) [("t1", ["AWSCURRENT"]), ("t2", ["AWSPENDING"])]) "t3"
      "setSecret" = DispatchOutcome.failed m) := by
  refine ⟨?_, ?_, ?_, ?_, ?_⟩
  · exact (((claim_C2_dispatcher_guard
      (Metadata.mk (some true) [("t1", ["AWSCURRENT"]), ("t2", ["AWSPENDING"])]) "t2"
      "setSecret").2.2.2.2 ["AWSPENDING"] (by decide) (by decide) (by decide)
        (by decide)).2.1 rfl)
  · exact ((claim_C2_dispatcher_guard
      (Metadata.mk (some true) [("t1", ["AWSCURRENT"]), ("t2", ["AWSPENDING"])]) "t1"
      "setSecret").2.2.1 ["AWSCURRENT"] (by decide) (by decide) (by decide))
  · exact (((claim_C2_dispatcher_guard
      (Metadata.mk (some true) [("t1", ["AWSCURRENT"]), ("t2", ["AWSPENDING"])]) "t2"
      "rotateSecret").2.2.2.2 ["AWSPENDING"] (by decide) (by decide) (by decide)
        (by decide)).2.2.2.2 (by decide) (by decide) (by decide) (by decide))
  · exact ((claim_C2_dispatcher_guard
      (Metadata.mk (some false) [("t1", ["AWSCURRENT"]), ("t2", ["AWSPENDING"])]) "t2"
      "setSecret").1 rfl)
  · exact ((claim_C2_dispatcher_guard
      (Metadata.mk (some true) [("t1", ["AWSCURRENT"]), ("t2", ["AWSPENDING"])]) "t3"
      "setSecret").2.1 (by decide) (by decide))

/-- Claim C8: the MariaDB transport policy.  An absent `ssl` key, a
value of a type other than bool or string, or a string other than
true/false ignoring case, yields an encrypted attempt with one
unencrypted retry on failure; a boolean is used exactly with no
retry; a string "true"/"false" in any letter case is used exactly with
no retry, so `ssl: "TRUE"` makes a single encrypted attempt and
returns no session immediately on failure. -/
theorem claim_C8_ssl_transport_policy (ora : MariaOracle) (d : SecretDict)
    (h u p : JVal) (port : Int)
    (hh : lookup d "host" = some h) (hu : lookup d "username" = some u)
    (hp : lookup d "password" = some p)
    (hport : (if hasKey d "port" then pyInt (pyGet d "port") else Except.ok 3306) =
      Except.ok port) :
    (lookup d "ssl" = none → get_ssl_config d = (true, true)) ∧
    (∀ b, lookup d "ssl" = some (JVal.bool b) → get_ssl_config d = (b, false)) ∧
    (∀ s, lookup d "ssl" = some (JVal.str s) →
      (pyLower s = "true" → get_ssl_config d = (true, false)) ∧
      (pyLower s = "false" → get_ssl_config d = (false, false)) ∧
      (pyLower s ≠ "true" → pyLower s ≠ "false" → get_ssl_config d = (true, true))) ∧
    (∀ n, lookup d "ssl" = some (JVal.num n) → get_ssl_config d = (true, true)) ∧
    (lookup d "ssl" = some JVal.null → get_ssl_config d = (true, true)) ∧
    (∀ us, get_ssl_config d = (us, false) →
      get_connection_maria ora d =
        (Except.ok (if ora h u p port (lookup d "dbname") us then some () else none),
         [Ev.attemptM h u p port (lookup d "dbname") us])) ∧
    (∀ us, get_ssl_config d = (us, true) →
      get_connection_maria ora d =
        (if ora h u p port (lookup d "dbname") us then
          (Except.ok (some ()), [Ev.attemptM h u p port (lookup d "dbname") us])
         else
          (Except.ok (if ora h u p port (lookup d "dbname") false then some () else none),
           [Ev.attemptM h u p port (lookup d "dbname") us,
            Ev.attemptM h u p port (lookup d "dbname") false]))) := by
  refine ⟨?_, ?_, ?_, ?_, ?_, ?_, ?_⟩
  · intro hs
    simp [get_ssl_config, hs]
  · intro b hs
    simp [get_ssl_config, hs]
  · intro s hs
    refine ⟨?_, ?_, ?_⟩
    · intro ht
      simp [get_ssl_config, hs, ht]
    · intro ht
      simp [get_ssl_config, hs, ht]
    · intro ht hf
      simp [get_ssl_config, hs, ht, hf]
  · intro n hs
    simp [get_ssl_config, hs]
  · intro hs
    simp [get_ssl_config, hs]
  · intro us hcfg
    rw [get_connection_maria_spec ora d h u p port hh hu hp hport, hcfg]
    by_cases hora : ora h u p port (lookup d "dbname") us = true
    · simp [hora]
    · simp [hora]
  · intro us hcfg
    rw [get_connection_maria_spec ora d h u p port hh hu hp hport, hcfg]
    by_cases hora : ora h u p port (lookup d "dbname") us = true
    · simp [hora]
    · simp [hora]

/-- Witness for claim C8: a concrete record with `ssl: "TRUE"` and an
oracle refusing encrypted transport, so the resolver makes one
encrypted attempt and returns no session. -/
theorem claim_C8_ssl_transport_policy_witness :
    get_ssl_config
      [("engine", JVal.str "mariadb"), ("host", JVal.str "db1"),
       ("username", JVal.str "app"), ("password", JVal.str "pw"),
       ("ssl", JVal.str "TRUE")] = (true, false) ∧
    get_connection_maria (fun _ _ _ _ _ _ => false)
      [("engine", JVal.str "mariadb"), ("host", JVal.str "db1"),
       ("username", JVal.str "app"), ("password", JVal.str "pw"),
       ("ssl", JVal.str "TRUE")] =
      (Except.ok none,
       [Ev.attemptM (JVal.str "db1") (JVal.str "app") (JVal.str "pw") 3306 none true]) := by
  have hmain := claim_C8_ssl_transport_policy (fun _ _ _ _ _ _ => false)
    [("engine", JVal.str "mariadb"), ("host", JVal.str "db1"),
     ("username", JVal.str "app"), ("password", JVal.str "pw"),
     ("ssl", JVal.str "TRUE")]
    (JVal.str "db1") (JVal.str "app") (JVal.str "pw") 3306
    (by decide) (by decide) (by decide) (by decide)
  have hcfg := (hmain.2.2.1 "TRUE" (by decide)).1 (by decide)
  refine ⟨hcfg, ?_⟩
  have hbeh := hmain.2.2.2.2.2.1 true hcfg
  simpa using hbeh

/-! Error classification: which exceptions the helpers can raise. -/

theorem pyInt_err (v : JVal) (e : PyErr) (h : pyInt v = Except.error e) :
    e ≠ PyErr.resourceNotFound := by
  cases v with
  | num n => simp [pyInt] at h
  | str s =>
      simp only [pyInt] at h
      cases hs : s.toInt? with
      | some n => rw [hs] at h; simp at h
      | none =>
          rw [hs] at h
          have he : PyErr.valueError "invalid literal for int" = e := by simpa using h
          rw [← he]
          intro hc
          cases hc
  | bool b => simp [pyInt] at h
  | null =>
      simp only [pyInt] at h
      have he : PyErr.typeError "int of None" = e := by simpa using h
      rw [← he]
      intro hc
      cases hc

theorem dictNe_err (a b : SecretDict) (k : String) (e : PyErr)
    (h : dictNe a b k = Except.error e) : e ≠ PyErr.resourceNotFound := by
  unfold dictNe at h
  cases hx : lookup a k with
  | none =>
      rw [hx] at h
      have he : PyErr.keyError k = e := by simpa using h
      rw [← he]
      intro hc
      cases hc
  | some x =>
      rw [hx] at h
      cases hy : lookup b k with
      | none =>
          rw [hy] at h
          have he : PyErr.keyError k = e := by simpa using h
          rw [← he]
          intro hc
          cases hc
      | some y =>
          rw [hy] at h
          simp at h

theorem get_connection_maria_err (ora : MariaOracle) (d : SecretDict) (e : PyErr)
    (h : (get_connection_maria ora d).1 = Except.error e) :
    e ≠ PyErr.resourceNotFound := by
  cases hport : (if hasKey d "port" then pyInt (pyGet d "port") else Except.ok 3306) with
  | error e0 =>
      have he : e0 = e := by
        unfold get_connection_maria at h
        rw [hport] at h
        simpa using h
      subst he
      by_cases hk : hasKey d "port" = true
      · rw [if_pos hk] at hport
        exact pyInt_err _ _ hport
      · rw [if_neg (by simpa using hk)] at hport
        cases hport
  | ok port =>
      cases hh : lookup d "host" with
      | none =>
          have he : PyErr.keyError "host or username or password" = e := by
            unfold get_connection_maria at h
            rw [hport] at h
            simp only [connect_and_authenticate, hh] at h
            simpa using h
          rw [← he]
          intro hc
          cases hc
      | some hv =>
        cases hu : lookup d "username" with
        | none =>
            have he : PyErr.keyError "host or username or password" = e := by
              unfold get_connection_maria at h
              rw [hport] at h
              simp only [connect_and_authenticate, hh, hu] at h
              simpa using h
            rw [← he]
            intro hc
            cases hc
        | some uv =>
          cases hp : lookup d "password" with
          | none =>
              have he : PyErr.keyError "host or username or password" = e := by
                unfold get_connection_maria at h
                rw [hport] at h
                simp only [connect_and_authenticate, hh, hu, hp] at h
                simpa using h
              rw [← he]
              intro hc
              cases hc
          | some pv =>
              rw [get_connection_maria_spec ora d hv uv pv port hh hu hp hport] at h
              by_cases h1 : ora hv uv pv port (lookup d "dbname") (get_ssl_config d).1 = true
              · simp [h1] at h
              · by_cases h2 : (get_ssl_config d).2 = true
                · simp [h1, h2] at h
                · simp [h1, h2] at h

theorem get_connection_pg_err (ora : PgOracle) (d : SecretDict) (e : PyErr)
    (h : (get_connection_pg ora d).1 = Except.error e) :
    e ≠ PyErr.resourceNotFound := by
  cases hport : (if hasKey d "port" then pyInt (pyGet d "port") else Except.ok 5432) with
  | error e0 =>
      have he : e0 = e := by
        unfold get_connection_pg at h
        rw [hport] at h
        simpa using h
      subst he
      by_cases hk : hasKey d "port" = true
      · rw [if_pos hk] at hport
        exact pyInt_err _ _ hport
      · rw [if_neg (by simpa using hk)] at hport
        cases hport
  | ok port =>
      cases hh : lookup d "host" with
      | none =>
          have he : PyErr.keyError "host or username or password" = e := by
            unfold get_connection_pg at h
            rw [hport] at h
            simp only [hh] at h
            simpa using h
          rw [← he]
          intro hc
          cases hc
      | some hv =>
        cases hu : lookup d "username" with
        | none =>
            have he : PyErr.keyError "host or username or password" = e := by
              unfold get_connection_pg at h
              rw [hport] at h
              simp only [hh, hu] at h
              simpa using h
            rw [← he]
            intro hc
            cases hc
        | some uv =>
          cases hp : lookup d "password" with
          | none =>
              have he : PyErr.keyError "host or username or password" = e := by
                unfold get_connection_pg at h
                rw [hport] at h
                simp only [hh, hu, hp] at h
                simpa using h
              rw [← he]
              intro hc
              cases hc
          | some pv =>
              rw [get_connection_pg_spec ora d hv uv pv port hh hu hp hport] at h
              simp at h

theorem set_secret_maria_tail_err (conn : Option Unit) (tr : List Ev) (pd : SecretDict)
    (e : PyErr) (h : (set_secret_maria_tail conn tr pd).1 = Except.error e) :
    e ≠ PyErr.resourceNotFound := by
  unfold set_secret_maria_tail at h
  cases conn with
  | none =>
      have he : PyErr.valueError
          "Unable to log into database with previous, current, or pending secret" = e := by
        simpa using h
      rw [← he]
      intro hc
      cases hc
  | some c =>
      cases hx : lookup pd "password" with
      | some p =>
          rw [hx] at h
          simp at h
      | none =>
          rw [hx] at h
          have he : PyErr.keyError "password" = e := by simpa using h
          rw [← he]
          intro hc
          cases hc

theorem set_secret_pg_tail_err (conn : Option Unit) (tr : List Ev) (pd : SecretDict)
    (e : PyErr) (h : (set_secret_pg_tail conn tr pd).1 = Except.error e) :
    e ≠ PyErr.resourceNotFound := by
  unfold set_secret_pg_tail at h
  cases conn with
  | none =>
      have he : PyErr.valueError
          "Unable to log into database with previous, current, or pending secret" = e := by
        simpa using h
      rw [← he]
      intro hc
      cases hc
  | some c =>
      cases hx : lookup pd "username" with
      | some u =>
          rw [hx] at h
          cases hy : lookup pd "password" with
          | some p =>
              rw [hy] at h
              simp at h
          | none =>
              rw [hy] at h
              have he : PyErr.keyError "username or password" = e := by simpa using h
              rw [← he]
              intro hc
              cases hc
      | none =>
          rw [hx] at h
          have he : PyErr.keyError "username or password" = e := by simpa using h
          rw [← he]
          intro hc
          cases hc

theorem set_secret_maria_prev_notFound_no_rnf (ora : MariaOracle) (currF pendF : Fetch)
    (cd pd : SecretDict)
    (h1 : get_secret_dict_maria currF = Except.ok cd)
    (h2 : get_secret_dict_maria pendF = Except.ok pd) :
    (set_secret_maria ora Fetch.notFound currF pendF).1 ≠
      Except.error PyErr.resourceNotFound := by
  intro hcon
  have hnf : get_secret_dict_maria Fetch.notFound =
      Except.error PyErr.resourceNotFound := rfl
  obtain ⟨-, -, -, -, hpass⟩ := get_secret_dict_maria_ok h2
  obtain ⟨pw, hpw⟩ := Option.isSome_iff_exists.mp hpass
  cases hgc1 : get_connection_maria ora pd with
  | mk r1 tr1 =>
    cases r1 with
    | error e =>
        have henc := get_connection_maria_err ora pd e (by rw [hgc1])
        simp only [set_secret_maria, hnf, h1, h2, hgc1] at hcon
        exact henc (by simpa using hcon)
    | ok conn1 =>
      cases conn1 with
      | some c =>
          simp [set_secret_maria, hnf, h1, h2, hgc1] at hcon
      | none =>
        cases hdu : dictNe cd pd "username" with
        | error e =>
            have hend := dictNe_err cd pd "username" e hdu
            simp only [set_secret_maria, hnf, h1, h2, hgc1, hdu] at hcon
            exact hend (by simpa using hcon)
        | ok bu =>
          cases bu with
          | true =>
              simp [set_secret_maria, hnf, h1, h2, hgc1, hdu] at hcon
          | false =>
            cases hdh : dictNe cd pd "host" with
            | error e =>
                have hend := dictNe_err cd pd "host" e hdh
                simp only [set_secret_maria, hnf, h1, h2, hgc1, hdu,
                  hdh] at hcon
                exact hend (by simpa using hcon)
            | ok bh =>
              cases bh with
              | true =>
                  simp [set_secret_maria, hnf, h1, h2, hgc1, hdu,
                    hdh] at hcon
              | false =>
                cases hgc2 : get_connection_maria ora cd with
                | mk r2 tr2 =>
                  cases r2 with
                  | error e =>
                      have henc := get_connection_maria_err ora cd e (by rw [hgc2])
                      simp only [set_secret_maria, hnf, h1, h2, hgc1,
                        hdu, hdh, hgc2] at hcon
                      exact henc (by simpa using hcon)
                  | ok conn2 =>
                      have htail := set_secret_maria_tail_err conn2 (tr1 ++ tr2) pd
                      cases conn2 with
                      | some c =>
                          simp only [set_secret_maria, hnf, h1, h2,
                            hgc1, hdu, hdh, hgc2] at hcon
                          exact htail PyErr.resourceNotFound
                            (by simpa [set_secret_maria_tail, hpw] using hcon) rfl
                      | none =>
                          simp only [set_secret_maria, hnf, h1, h2,
                            hgc1, hdu, hdh, hgc2] at hcon
                          exact htail PyErr.resourceNotFound
                            (by simpa [set_secret_maria_tail] using hcon) rfl

theorem set_secret_pg_prev_notFound_no_rnf (orb : PgOracle) (currG pendG : Fetch)
    (qd rd : SecretDict)
    (h1 : get_secret_dict_pg currG = Except.ok qd)
    (h2 : get_secret_dict_pg pendG = Except.ok rd) :
    (set_secret_pg orb Fetch.notFound currG pendG).1 ≠
      Except.error PyErr.resourceNotFound := by
  intro hcon
  have hnf : get_secret_dict_pg Fetch.notFound = Except.error PyErr.resourceNotFound := rfl
  obtain ⟨-, -, -, huser, hpass⟩ := get_secret_dict_pg_ok h2
  obtain ⟨un, hun⟩ := Option.isSome_iff_exists.mp huser
  obtain ⟨pw, hpw⟩ := Option.isSome_iff_exists.mp hpass
  cases hgc1 : get_connection_pg orb rd with
  | mk r1 tr1 =>
    cases r1 with
    | error e =>
        have henc := get_connection_pg_err orb rd e (by rw [hgc1])
        simp only [set_secret_pg, h2, hgc1] at hcon
        exact henc (by simpa using hcon)
    | ok conn1 =>
      cases conn1 with
      | some c => simp [set_secret_pg, h2, hgc1] at hcon
      | none =>
          cases hgc2 : get_connection_pg orb qd with
          | mk r2 tr2 =>
            cases r2 with
            | error e =>
                have henc := get_connection_pg_err orb qd e (by rw [hgc2])
                simp only [set_secret_pg, h1, h2, hgc1, hgc2] at hcon
                exact henc (by simpa using hcon)
            | ok conn2 =>
                cases conn2 with
                | some c =>
                    simp only [set_secret_pg, h1, h2, hgc1, hgc2] at hcon
                    exact set_secret_pg_tail_err (some c) (tr1 ++ tr2) rd
                      PyErr.resourceNotFound hcon rfl
                | none =>
                    simp only [set_secret_pg, hnf, h1, h2, hgc1, hgc2] at hcon
                    exact set_secret_pg_tail_err none (tr1 ++ tr2) rd
                      PyErr.resourceNotFound hcon rfl

theorem no_exec_append {t1 t2 : List Ev}
    (a : ∀ ev ∈ t1, isExecEv ev = false) (b : ∀ ev ∈ t2, isExecEv ev = false) :
    ∀ ev ∈ t1 ++ t2, isExecEv ev = false := by
  intro ev hev
  rcases List.mem_append.mp hev with h | h
  · exact a ev h
  · exact b ev h

theorem no_exec_of_conn_maria (ora : MariaOracle) (d : SecretDict)
    (r : Except PyErr (Option Unit)) (tr : List Ev)
    (h : get_connection_maria ora d = (r, tr)) :
    ∀ ev ∈ tr, isExecEv ev = false := by
  intro ev hev
  exact (get_connection_maria_no_exec ora d ev (by rw [h]; exact hev)).1

theorem no_exec_of_conn_pg (orb : PgOracle) (d : SecretDict)
    (r : Except PyErr (Option Unit)) (tr : List Ev)
    (h : get_connection_pg orb d = (r, tr)) :
    ∀ ev ∈ tr, isExecEv ev = false := by
  intro ev hev
  exact (get_connection_pg_no_exec orb d ev (by rw [h]; exact hev)).1

theorem set_secret_maria_no_session_fatal (ora : MariaOracle) (prevF currF pendF : Fetch)
    (cd pd : SecretDict) (hP uP wP hC uC wC : JVal)
    (h1 : get_secret_dict_maria currF = Except.ok cd)
    (h2 : get_secret_dict_maria pendF = Except.ok pd)
    (hPh : lookup pd "host" = some hP) (hPu : lookup pd "username" = some uP)
    (hPw : lookup pd "password" = some wP)
    (hCh : lookup cd "host" = some hC) (hCu : lookup cd "username" = some uC)
    (hCw : lookup cd "password" = some wC)
    (horaP : ∀ port db ssl, ora hP uP wP port db ssl = false)
    (horaC : ∀ port db ssl, ora hC uC wC port db ssl = false)
    (horaV : ∀ pvd hv uv wv, get_secret_dict_maria prevF = Except.ok pvd →
      lookup pvd "host" = some hv → lookup pvd "username" = some uv →
      lookup pvd "password" = some wv → ∀ port db ssl, ora hv uv wv port db ssl = false) :
    (∃ e, (set_secret_maria ora prevF currF pendF).1 = Except.error e) ∧
      (∀ ev ∈ (set_secret_maria ora prevF currF pendF).2, isExecEv ev = false) := by
  have hns1 := get_connection_maria_not_some ora pd hP uP wP hPh hPu hPw horaP
  cases hgc1 : get_connection_maria ora pd with
  | mk r1 tr1 =>
  rw [hgc1] at hns1
  simp only at hns1
  have nx1 := no_exec_of_conn_maria ora pd r1 tr1 hgc1
  rcases Or.symm hns1 with ⟨e1, hr1⟩ | hr1
  case _ =>
    subst hr1
    have heq : set_secret_maria ora prevF currF pendF = (Except.error e1, tr1) := by
      simp [set_secret_maria, h1, h2, hgc1]
    rw [heq]
    exact ⟨⟨e1, rfl⟩, nx1⟩
  case _ =>
  subst hr1
  cases hdu : dictNe cd pd "username" with
  | error e =>
      have heq : set_secret_maria ora prevF currF pendF = (Except.error e, tr1) := by
        simp [set_secret_maria, h1, h2, hgc1, hdu]
      rw [heq]
      exact ⟨⟨e, rfl⟩, nx1⟩
  | ok bu =>
  cases bu with
  | true =>
      have heq : set_secret_maria ora prevF currF pendF =
          (Except.error (PyErr.valueError
            "Attempting to modify user other than current user"), tr1) := by
        simp [set_secret_maria, h1, h2, hgc1, hdu]
      rw [heq]
      exact ⟨⟨_, rfl⟩, nx1⟩
  | false =>
  cases hdh : dictNe cd pd "host" with
  | error e =>
      have heq : set_secret_maria ora prevF currF pendF = (Except.error e, tr1) := by
        simp [set_secret_maria, h1, h2, hgc1, hdu, hdh]
      rw [heq]
      exact ⟨⟨e, rfl⟩, nx1⟩
  | ok bh =>
  cases bh with
  | true =>
      have heq : set_secret_maria ora prevF currF pendF =
          (Except.error (PyErr.valueError
            "Attempting to modify user for host other than current host"), tr1) := by
        simp [set_secret_maria, h1, h2, hgc1, hdu, hdh]
      rw [heq]
      exact ⟨⟨_, rfl⟩, nx1⟩
  | false =>
  have hns2 := get_connection_maria_not_some ora cd hC uC wC hCh hCu hCw horaC
  cases hgc2 : get_connection_maria ora cd with
  | mk r2 tr2 =>
  rw [hgc2] at hns2
  simp only at hns2
  have nx2 := no_exec_of_conn_maria ora cd r2 tr2 hgc2
  rcases Or.symm hns2 with ⟨e2, hr2⟩ | hr2
  case _ =>
    subst hr2
    have heq : set_secret_maria ora prevF currF pendF = (Except.error e2, tr1 ++ tr2) := by
      simp [set_secret_maria, h1, h2, hgc1, hdu, hdh, hgc2]
    rw [heq]
    exact ⟨⟨e2, rfl⟩, no_exec_append nx1 nx2⟩
  case _ =>
  subst hr2
  cases hvp : get_secret_dict_maria prevF with
  | error e0 =>
      have heq : set_secret_maria ora prevF currF pendF =
          (Except.error (PyErr.valueError
            "Unable to log into database with previous, current, or pending secret"),
           tr1 ++ tr2) := by
        simp [set_secret_maria, set_secret_maria_tail, h1, h2, hgc1, hdu, hdh, hgc2, hvp]
      rw [heq]
      exact ⟨⟨_, rfl⟩, no_exec_append nx1 nx2⟩
  | ok pvd =>
  obtain ⟨-, -, hostp, userp, passp⟩ := get_secret_dict_maria_ok hvp
  obtain ⟨hv, hvh⟩ := Option.isSome_iff_exists.mp hostp
  obtain ⟨uv, hvu⟩ := Option.isSome_iff_exists.mp userp
  obtain ⟨wv, hvw⟩ := Option.isSome_iff_exists.mp passp
  have horaV2 := horaV pvd hv uv wv hvp hvh hvu hvw
  cases hssl : lookup cd "ssl" with
  | some sv =>
      have hp2h : lookup (setKey (delKey pvd "ssl") "ssl" sv) "host" = some hv := by
        rw [lookup_setKey_ne _ _ _ _ (by decide), lookup_delKey_ne _ _ _ (by decide)]
        exact hvh
      have hp2u : lookup (setKey (delKey pvd "ssl") "ssl" sv) "username" = some uv := by
        rw [lookup_setKey_ne _ _ _ _ (by decide), lookup_delKey_ne _ _ _ (by decide)]
        exact hvu
      have hp2w : lookup (setKey (delKey pvd "ssl") "ssl" sv) "password" = some wv := by
        rw [lookup_setKey_ne _ _ _ _ (by decide), lookup_delKey_ne _ _ _ (by decide)]
        exact hvw
      have hns3 := get_connection_maria_not_some ora (setKey (delKey pvd "ssl") "ssl" sv)
        hv uv wv hp2h hp2u hp2w horaV2
      cases hgc3 : get_connection_maria ora (setKey (delKey pvd "ssl") "ssl" sv) with
      | mk r3 tr3 =>
      rw [hgc3] at hns3
      simp only at hns3
      have nx3 := no_exec_of_conn_maria ora _ r3 tr3 hgc3
      rcases Or.symm hns3 with ⟨e3, hr3⟩ | hr3
      case _ =>
        subst hr3
        have heq : set_secret_maria ora prevF currF pendF =
            (Except.error e3, tr1 ++ tr2 ++ tr3) := by
          simp [set_secret_maria, h1, h2, hgc1, hdu, hdh, hgc2, hvp, sslFromCurrent, hssl, hgc3]
        rw [heq]
        exact ⟨⟨e3, rfl⟩, no_exec_append (no_exec_append nx1 nx2) nx3⟩
      case _ =>
      subst hr3
      cases hdu2 : dictNe (setKey (delKey pvd "ssl") "ssl" sv) pd "username" with
      | error e =>
          have heq : set_secret_maria ora prevF currF pendF =
              (Except.error e, tr1 ++ tr2 ++ tr3) := by
            simp [set_secret_maria, h1, h2, hgc1, hdu, hdh, hgc2, hvp, sslFromCurrent, hssl, hgc3, hdu2]
          rw [heq]
          exact ⟨⟨e, rfl⟩, no_exec_append (no_exec_append nx1 nx2) nx3⟩
      | ok bu2 =>
      cases bu2 with
      | true =>
          have heq : set_secret_maria ora prevF currF pendF =
              (Except.error (PyErr.valueError
                "Attempting to modify user other than last valid user"),
               tr1 ++ tr2 ++ tr3) := by
            simp [set_secret_maria, h1, h2, hgc1, hdu, hdh, hgc2, hvp, sslFromCurrent, hssl, hgc3, hdu2]
          rw [heq]
          exact ⟨⟨_, rfl⟩, no_exec_append (no_exec_append nx1 nx2) nx3⟩
      | false =>
      cases hdh2 : dictNe (setKey (delKey pvd "ssl") "ssl" sv) pd "host" with
      | error e =>
          have heq : set_secret_maria ora prevF currF pendF =
              (Except.error e, tr1 ++ tr2 ++ tr3) := by
            simp [set_secret_maria, h1, h2, hgc1, hdu, hdh, hgc2, hvp, sslFromCurrent, hssl, hgc3,
              hdu2, hdh2]
          rw [heq]
          exact ⟨⟨e, rfl⟩, no_exec_append (no_exec_append nx1 nx2) nx3⟩
      | ok bh2 =>
      cases bh2 with
      | true =>
          have heq : set_secret_maria ora prevF currF pendF =
              (Except.error (PyErr.valueError
                "Attempting to modify user for host other than previous host"),
               tr1 ++ tr2 ++ tr3) := by
            simp [set_secret_maria, h1, h2, hgc1, hdu, hdh, hgc2, hvp, sslFromCurrent, hssl, hgc3,
              hdu2, hdh2]
          rw [heq]
          exact ⟨⟨_, rfl⟩, no_exec_append (no_exec_append nx1 nx2) nx3⟩
      | false =>
          have heq : set_secret_maria ora prevF currF pendF =
              (Except.error (PyErr.valueError
                "Unable to log into database with previous, current, or pending secret"),
               tr1 ++ tr2 ++ tr3) := by
            simp [set_secret_maria, set_secret_maria_tail, h1, h2, hgc1, hdu, hdh, hgc2,
              hvp, sslFromCurrent, hssl, hgc3, hdu2, hdh2]
          rw [heq]
          exact ⟨⟨_, rfl⟩, no_exec_append (no_exec_append nx1 nx2) nx3⟩
  | none =>
      have hp2h : lookup (delKey pvd "ssl") "host" = some hv := by
        rw [lookup_delKey_ne _ _ _ (by decide)]
        exact hvh
      have hp2u : lookup (delKey pvd "ssl") "username" = some uv := by
        rw [lookup_delKey_ne _ _ _ (by decide)]
        exact hvu
      have hp2w : lookup (delKey pvd "ssl") "password" = some wv := by
        rw [lookup_delKey_ne _ _ _ (by decide)]
        exact hvw
      have hns3 := get_connection_maria_not_some ora (delKey pvd "ssl")
        hv uv wv hp2h hp2u hp2w horaV2
      cases hgc3 : get_connection_maria ora (delKey pvd "ssl") with
      | mk r3 tr3 =>
      rw [hgc3] at hns3
      simp only at hns3
      have nx3 := no_exec_of_conn_maria ora _ r3 tr3 hgc3
      rcases Or.symm hns3 with ⟨e3, hr3⟩ | hr3
      case _ =>
        subst hr3
        have heq : set_secret_maria ora prevF currF pendF =
            (Except.error e3, tr1 ++ tr2 ++ tr3) := by
          simp [set_secret_maria, h1, h2, hgc1, hdu, hdh, hgc2, hvp, sslFromCurrent, hssl, hgc3]
        rw [heq]
        exact ⟨⟨e3, rfl⟩, no_exec_append (no_exec_append nx1 nx2) nx3⟩
      case _ =>
      subst hr3
      cases hdu2 : dictNe (delKey pvd "ssl") pd "username" with
      | error e =>
          have heq : set_secret_maria ora prevF currF pendF =
              (Except.error e, tr1 ++ tr2 ++ tr3) := by
            simp [set_secret_maria, h1, h2, hgc1, hdu, hdh, hgc2, hvp, sslFromCurrent, hssl, hgc3, hdu2]
          rw [heq]
          exact ⟨⟨e, rfl⟩, no_exec_append (no_exec_append nx1 nx2) nx3⟩
      | ok bu2 =>
      cases bu2 with
      | true =>
          have heq : set_secret_maria ora prevF currF pendF =
              (Except.error (PyErr.valueError
                "Attempting to modify user other than last valid user"),
               tr1 ++ tr2 ++ tr3) := by
            simp [set_secret_maria, h1, h2, hgc1, hdu, hdh, hgc2, hvp, sslFromCurrent, hssl, hgc3, hdu2]
          rw [heq]
          exact ⟨⟨_, rfl⟩, no_exec_append (no_exec_append nx1 nx2) nx3⟩
      | false =>
      cases hdh2 : dictNe (delKey pvd "ssl") pd "host" with
      | error e =>
          have heq : set_secret_maria ora prevF currF pendF =
              (Except.error e, tr1 ++ tr2 ++ tr3) := by
            simp [set_secret_maria, h1, h2, hgc1, hdu, hdh, hgc2, hvp, sslFromCurrent, hssl, hgc3,
              hdu2, hdh2]
          rw [heq]
          exact ⟨⟨e, rfl⟩, no_exec_append (no_exec_append nx1 nx2) nx3⟩
      | ok bh2 =>
      cases bh2 with
      | true =>
          have heq : set_secret_maria ora prevF currF pendF =
              (Except.error (PyErr.valueError
                "Attempting to modify user for host other than previous host"),
               tr1 ++ tr2 ++ tr3) := by
            simp [set_secret_maria, h1, h2, hgc1, hdu, hdh, hgc2, hvp, sslFromCurrent, hssl, hgc3,
              hdu2, hdh2]
          rw [heq]
          exact ⟨⟨_, rfl⟩, no_exec_append (no_exec_append nx1 nx2) nx3⟩
      | false =>
          have heq : set_secret_maria ora prevF currF pendF =
              (Except.error (PyErr.valueError
                "Unable to log into database with previous, current, or pending secret"),
               tr1 ++ tr2 ++ tr3) := by
            simp [set_secret_maria, set_secret_maria_tail, h1, h2, hgc1, hdu, hdh, hgc2,
              hvp, sslFromCurrent, hssl, hgc3, hdu2, hdh2]
          rw [heq]
          exact ⟨⟨_, rfl⟩, no_exec_append (no_exec_append nx1 nx2) nx3⟩

theorem set_secret_pg_no_session_fatal (orb : PgOracle) (prevF currG pendG : Fetch)
    (qd rd : SecretDict) (hP uP wP hC uC wC : JVal)
    (h1 : get_secret_dict_pg currG = Except.ok qd)
    (h2 : get_secret_dict_pg pendG = Except.ok rd)
    (hPh : lookup rd "host" = some hP) (hPu : lookup rd "username" = some uP)
    (hPw : lookup rd "password" = some wP)
    (hCh : lookup qd "host" = some hC) (hCu : lookup qd "username" = some uC)
    (hCw : lookup qd "password" = some wC)
    (horaP : ∀ db port sm, orb hP uP wP db port sm = false)
    (horaC : ∀ db port sm, orb hC uC wC db port sm = false)
    (horaV : ∀ pvd hv uv wv, get_secret_dict_pg prevF = Except.ok pvd →
      lookup pvd "host" = some hv → lookup pvd "username" = some uv →
      lookup pvd "password" = some wv → ∀ db port sm, orb hv uv wv db port sm = false) :
    (∃ e, (set_secret_pg orb prevF currG pendG).1 = Except.error e) ∧
      (∀ ev ∈ (set_secret_pg orb prevF currG pendG).2, isExecEv ev = false) := by
  have hns1 := get_connection_pg_not_some orb rd hP uP wP hPh hPu hPw horaP
  cases hgc1 : get_connection_pg orb rd with
  | mk r1 tr1 =>
  rw [hgc1] at hns1
  simp only at hns1
  have nx1 := no_exec_of_conn_pg orb rd r1 tr1 hgc1
  rcases Or.symm hns1 with ⟨e1, hr1⟩ | hr1
  case _ =>
    subst hr1
    have heq : set_secret_pg orb prevF currG pendG = (Except.error e1, tr1) := by
      simp [set_secret_pg, h2, hgc1]
    rw [heq]
    exact ⟨⟨e1, rfl⟩, nx1⟩
  case _ =>
  subst hr1
  have hns2 := get_connection_pg_not_some orb qd hC uC wC hCh hCu hCw horaC
  cases hgc2 : get_connection_pg orb qd with
  | mk r2 tr2 =>
  rw [hgc2] at hns2
  simp only at hns2
  have nx2 := no_exec_of_conn_pg orb qd r2 tr2 hgc2
  rcases Or.symm hns2 with ⟨e2, hr2⟩ | hr2
  case _ =>
    subst hr2
    have heq : set_secret_pg orb prevF currG pendG = (Except.error e2, tr1 ++ tr2) := by
      simp [set_secret_pg, h1, h2, hgc1, hgc2]
    rw [heq]
    exact ⟨⟨e2, rfl⟩, no_exec_append nx1 nx2⟩
  case _ =>
  subst hr2
  cases hvp : get_secret_dict_pg prevF with
  | error e0 =>
      cases e0 with
      | resourceNotFound =>
          have heq : set_secret_pg orb prevF currG pendG =
              (Except.error (PyErr.valueError
                "Unable to log into database with previous, current, or pending secret"),
               tr1 ++ tr2) := by
            simp [set_secret_pg, set_secret_pg_tail, h1, h2, hgc1, hgc2, hvp]
          rw [heq]
          exact ⟨⟨_, rfl⟩, no_exec_append nx1 nx2⟩
      | keyError m =>
          have heq : set_secret_pg orb prevF currG pendG =
              (Except.error (PyErr.keyError m), tr1 ++ tr2) := by
            simp [set_secret_pg, h1, h2, hgc1, hgc2, hvp]
          rw [heq]
          exact ⟨⟨_, rfl⟩, no_exec_append nx1 nx2⟩
      | valueError m =>
          have heq : set_secret_pg orb prevF currG pendG =
              (Except.error (PyErr.valueError m), tr1 ++ tr2) := by
            simp [set_secret_pg, h1, h2, hgc1, hgc2, hvp]
          rw [heq]
          exact ⟨⟨_, rfl⟩, no_exec_append nx1 nx2⟩
      | typeError m =>
          have heq : set_secret_pg orb prevF currG pendG =
              (Except.error (PyErr.typeError m), tr1 ++ tr2) := by
            simp [set_secret_pg, h1, h2, hgc1, hgc2, hvp]
          rw [heq]
          exact ⟨⟨_, rfl⟩, no_exec_append nx1 nx2⟩
  | ok pvd =>
      obtain ⟨-, -, hostp, userp, passp⟩ := get_secret_dict_pg_ok hvp
      obtain ⟨hv, hvh⟩ := Option.isSome_iff_exists.mp hostp
      obtain ⟨uv, hvu⟩ := Option.isSome_iff_exists.mp userp
      obtain ⟨wv, hvw⟩ := Option.isSome_iff_exists.mp passp
      have hns3 := get_connection_pg_not_some orb pvd hv uv wv hvh hvu hvw
        (horaV pvd hv uv wv hvp hvh hvu hvw)
      cases hgc3 : get_connection_pg orb pvd with
      | mk r3 tr3 =>
      rw [hgc3] at hns3
      simp only at hns3
      have nx3 := no_exec_of_conn_pg orb pvd r3 tr3 hgc3
      rcases Or.symm hns3 with ⟨e3, hr3⟩ | hr3
      case _ =>
        subst hr3
        have heq : set_secret_pg orb prevF currG pendG =
            (Except.error e3, tr1 ++ tr2 ++ tr3) := by
          simp [set_secret_pg, h1, h2, hgc1, hgc2, hvp, hgc3]
        rw [heq]
        exact ⟨⟨e3, rfl⟩, no_exec_append (no_exec_append nx1 nx2) nx3⟩
      case _ =>
        subst hr3
        have heq : set_secret_pg orb prevF currG pendG =
            (Except.error (PyErr.valueError
              "Unable to log into database with previous, current, or pending secret"),
             tr1 ++ tr2 ++ tr3) := by
          simp [set_secret_pg, set_secret_pg_tail, h1, h2, hgc1, hgc2, hvp, hgc3]
        rw [heq]
        exact ⟨⟨_, rfl⟩, no_exec_append (no_exec_append nx1 nx2) nx3⟩

/-- Claim C3: in the set-secret step of both engine variants, absence
of a PREVIOUS payload (the vault not-found condition) is tolerated —
with valid current and pending payloads the step never surfaces the
not-found error — and whenever no database session can be opened with
the PENDING, CURRENT or PREVIOUS credential (the login oracle refuses
each of those credential triples), the step raises a fatal error and
no password-change statement is executed. -/
theorem claim_C3_set_secret_previous_tolerated_no_session_fatal
    (ora : MariaOracle) (orb : PgOracle) (prevF currF pendF prevG currG pendG : Fetch)
    (cd pd qd rd : SecretDict) (hP uP wP hC uC wC hQ uQ wQ hR uR wR : JVal)
    (h1M : get_secret_dict_maria currF = Except.ok cd)
    (h2M : get_secret_dict_maria pendF = Except.ok pd)
    (h1P : get_secret_dict_pg currG = Except.ok qd)
    (h2P : get_secret_dict_pg pendG = Except.ok rd)
    (hPh : lookup pd "host" = some hP) (hPu : lookup pd "username" = some uP)
    (hPw : lookup pd "password" = some wP)
    (hCh : lookup cd "host" = some hC) (hCu : lookup cd "username" = some uC)
    (hCw : lookup cd "password" = some wC)
    (hRh : lookup rd "host" = some hR) (hRu : lookup rd "username" = some uR)
    (hRw : lookup rd "password" = some wR)
    (hQh : lookup qd "host" = some hQ) (hQu : lookup qd "username" = some uQ)
    (hQw : lookup qd "password" = some wQ)
    (horaP : ∀ port db ssl, ora hP uP wP port db ssl = false)
    (horaC : ∀ port db ssl, ora hC uC wC port db ssl = false)
    (horaV : ∀ pvd hv uv wv, get_secret_dict_maria prevF = Except.ok pvd →
      lookup pvd "host" = some hv → lookup pvd "username" = some uv →
      lookup pvd "password" = some wv → ∀ port db ssl, ora hv uv wv port db ssl = false)
    (horbP : ∀ db port sm, orb hR uR wR db port sm = false)
    (horbC : ∀ db port sm, orb hQ uQ wQ db port sm = false)
    (horbV : ∀ pvd hv uv wv, get_secret_dict_pg prevG = Except.ok pvd →
      lookup pvd "host" = some hv → lookup pvd "username" = some uv →
      lookup pvd "password" = some wv → ∀ db port sm, orb hv uv wv db port sm = false) :
    ((set_secret_maria ora Fetch.notFound currF pendF).1 ≠
      Except.error PyErr.resourceNotFound) ∧
    ((set_secret_pg orb Fetch.notFound currG pendG).1 ≠
      Except.error PyErr.resourceNotFound) ∧
    ((∃ e, (set_secret_maria ora prevF currF pendF).1 = Except.error e) ∧
      (∀ ev ∈ (set_secret_maria ora prevF currF pendF).2, isExecEv ev = false)) ∧
    ((∃ e, (set_secret_pg orb prevG currG pendG).1 = Except.error e) ∧
      (∀ ev ∈ (set_secret_pg orb prevG currG pendG).2, isExecEv ev = false)) :=
  ⟨set_secret_maria_prev_notFound_no_rnf ora currF pendF cd pd h1M h2M,
   set_secret_pg_prev_notFound_no_rnf orb currG pendG qd rd h1P h2P,
   set_secret_maria_no_session_fatal ora prevF currF pendF cd pd hP uP wP hC uC wC
     h1M h2M hPh hPu hPw hCh hCu hCw horaP horaC horaV,
   set_secret_pg_no_session_fatal orb prevG currG pendG qd rd hR uR wR hQ uQ wQ
     h1P h2P hRh hRu hRw hQh hQu hQw horbP horbC horbV⟩

/-- Witness for claim C3: concrete valid current and pending payloads
for each engine, the PREVIOUS payload absent, and a database refusing
every login. -/
theorem claim_C3_set_secret_previous_tolerated_no_session_fatal_witness :
    ((set_secret_maria (fun _ _ _ _ _ _ => false) Fetch.notFound
        (Fetch.payload [("engine", JVal.str "mariadb"), ("host", JVal.str "db1"),
          ("username", JVal.str "app"), ("password", JVal.str "cur")])
        (Fetch.payload [("engine", JVal.str "mariadb"), ("host", JVal.str "db1"),
          ("username", JVal.str "app"), ("password", JVal.str "new")])).1 ≠
      Except.error PyErr.resourceNotFound) ∧
    ((set_secret_pg (fun _ _ _ _ _ _ => false) Fetch.notFound
        (Fetch.payload [("engine", JVal.str "postgres"), ("host", JVal.str "db1"),
          ("username", JVal.str "app"), ("password", JVal.str "cur")])
        (Fetch.payload [("engine", JVal.str "postgres"), ("host", JVal.str "db1"),
          ("username", JVal.str "app"), ("password", JVal.str "new")])).1 ≠
      Except.error PyErr.resourceNotFound) ∧
    ((∃ e, (set_secret_maria (fun _ _ _ _ _ _ => false) Fetch.notFound
        (Fetch.payload [("engine", JVal.str "mariadb"), ("host", JVal.str "db1"),
          ("username", JVal.str "app"), ("password", JVal.str "cur")])
        (Fetch.payload [("engine", JVal.str "mariadb"), ("host", JVal.str "db1"),
          ("username", JVal.str "app"), ("password", JVal.str "new")])).1 =
        Except.error e) ∧
      (∀ ev ∈ (set_secret_maria (fun _ _ _ _ _ _ => false) Fetch.notFound
        (Fetch.payload [("engine", JVal.str "mariadb"), ("host", JVal.str "db1"),
          ("username", JVal.str "app"), ("password", JVal.str "cur")])
        (Fetch.payload [("engine", JVal.str "mariadb"), ("host", JVal.str "db1"),
          ("username", JVal.str "app"), ("password", JVal.str "new")])).2,
        isExecEv ev = false)) ∧
    ((∃ e, (set_secret_pg (fun _ _ _ _ _ _ => false) Fetch.notFound
        (Fetch.payload [("engine", JVal.str "postgres"), ("host", JVal.str "db1"),
          ("username", JVal.str "app"), ("password", JVal.str "cur")])
        (Fetch.payload [("engine", JVal.str "postgres"), ("host", JVal.str "db1"),
          ("username", JVal.str "app"), ("password", JVal.str "new")])).1 =
        Except.error e) ∧
      (∀ ev ∈ (set_secret_pg (fun _ _ _ _ _ _ => false) Fetch.notFound
        (Fetch.payload [("engine", JVal.str "postgres"), ("host", JVal.str "db1"),
          ("username", JVal.str "app"), ("password", JVal.str "cur")])
        (Fetch.payload [("engine", JVal.str "postgres"), ("host", JVal.str "db1"),
          ("username", JVal.str "app"), ("password", JVal.str "new")])).2,
        isExecEv ev = false)) :=
  claim_C3_set_secret_previous_tolerated_no_session_fatal
    (fun _ _ _ _ _ _ => false) (fun _ _ _ _ _ _ => false)
    Fetch.notFound
    (Fetch.payload [("engine", JVal.str "mariadb"), ("host", JVal.str "db1"),
      ("username", JVal.str "app"), ("password", JVal.str "cur")])
    (Fetch.payload [("engine", JVal.str "mariadb"), ("host", JVal.str "db1"),
      ("username", JVal.str "app"), ("password", JVal.str "new")])
    Fetch.notFound
    (Fetch.payload [("engine", JVal.str "postgres"), ("host", JVal.str "db1"),
      ("username", JVal.str "app"), ("password", JVal.str "cur")])
    (Fetch.payload [("engine", JVal.str "postgres"), ("host", JVal.str "db1"),
      ("username", JVal.str "app"), ("password", JVal.str "new")])
    [("engine", JVal.str "mariadb"), ("host", JVal.str "db1"),
      ("username", JVal.str "app"), ("password", JVal.str "cur")]
    [("engine", JVal.str "mariadb"), ("host", JVal.str "db1"),
      ("username", JVal.str "app"), ("password", JVal.str "new")]
    [("engine", JVal.str "postgres"), ("host", JVal.str "db1"),
      ("username", JVal.str "app"), ("password", JVal.str "cur")]
    [("engine", JVal.str "postgres"), ("host", JVal.str "db1"),
      ("username", JVal.str "app"), ("password", JVal.str "new")]
    (JVal.str "db1") (JVal.str "app") (JVal.str "new")
    (JVal.str "db1") (JVal.str "app") (JVal.str "cur")
    (JVal.str "db1") (JVal.str "app") (JVal.str "cur")
    (JVal.str "db1") (JVal.str "app") (JVal.str "new")
    (by decide) (by decide) (by decide) (by decide)
    (by decide) (by decide) (by decide)
    (by decide) (by decide) (by decide)
    (by decide) (by decide) (by decide)
    (by decide) (by decide) (by decide)
    (fun _ _ _ => rfl) (fun _ _ _ => rfl)
    (fun pvd hv uv wv hok _ _ _ => nomatch hok)
    (fun _ _ _ => rfl) (fun _ _ _ => rfl)
    (fun pvd hv uv wv hok _ _ _ => nomatch hok)

/-- Claim C4: the set-secret step is idempotent.  In both engine
variants, whenever a session opens with the PENDING credential the
step closes that session and returns success immediately, and its
whole effect trace holds no SQL statement and no vault write. -/
theorem claim_C4_set_secret_idempotent (ora : MariaOracle) (orb : PgOracle)
    (prevF currF pendF prevG currG : Fetch) (pendG : Fetch)
    (cd pd rd : SecretDict) (c1 c2 : Unit) (trM trP : List Ev)
    (hcurr : get_secret_dict_maria currF = Except.ok cd)
    (hpend : get_secret_dict_maria pendF = Except.ok pd)
    (hconnM : get_connection_maria ora pd = (Except.ok (some c1), trM))
    (hpendG : get_secret_dict_pg pendG = Except.ok rd)
    (hconnP : get_connection_pg orb rd = (Except.ok (some c2), trP)) :
    (set_secret_maria ora prevF currF pendF = (Except.ok (), trM ++ [Ev.closeConn]) ∧
      ∀ ev ∈ trM ++ [Ev.closeConn], isExecEv ev = false ∧ isPutEv ev = false) ∧
    (set_secret_pg orb prevG currG pendG = (Except.ok (), trP ++ [Ev.closeConn]) ∧
      ∀ ev ∈ trP ++ [Ev.closeConn], isExecEv ev = false ∧ isPutEv ev = false) := by
  refine ⟨⟨?_, ?_⟩, ⟨?_, ?_⟩⟩
  · simp [set_secret_maria, hcurr, hpend, hconnM]
  · intro ev hev
    rcases List.mem_append.mp hev with h | h
    · exact get_connection_maria_no_exec ora pd ev (by rw [hconnM]; exact h)
    · have : ev = Ev.closeConn := by simpa using h
      rw [this]
      exact ⟨rfl, rfl⟩
  · simp [set_secret_pg, hpendG, hconnP]
  · intro ev hev
    rcases List.mem_append.mp hev with h | h
    · exact get_connection_pg_no_exec orb rd ev (by rw [hconnP]; exact h)
    · have : ev = Ev.closeConn := by simpa using h
      rw [this]
      exact ⟨rfl, rfl⟩

/-- Witness for claim C4: concrete payloads whose pending password is
already live (the login oracle accepts the pending password). -/
theorem claim_C4_set_secret_idempotent_witness :
    (set_secret_maria (fun _ _ p _ _ _ => p == JVal.str "new") Fetch.notFound
        (Fetch.payload [("engine", JVal.str "mariadb"), ("host", JVal.str "db1"),
          ("username", JVal.str "app"), ("password", JVal.str "cur")])
        (Fetch.payload [("engine", JVal.str "mariadb"), ("host", JVal.str "db1"),
          ("username", JVal.str "app"), ("password", JVal.str "new")]) =
      (Except.ok (),
       [Ev.attemptM (JVal.str "db1") (JVal.str "app") (JVal.str "new") 3306 none true,
        Ev.closeConn]) ∧
      ∀ ev ∈ [Ev.attemptM (JVal.str "db1") (JVal.str "app") (JVal.str "new") 3306 none true,
          Ev.closeConn], isExecEv ev = false ∧ isPutEv ev = false) ∧
    (set_secret_pg (fun _ _ p _ _ _ => p == JVal.str "new") Fetch.notFound
        (Fetch.payload [("engine", JVal.str "postgres"), ("host", JVal.str "db1"),
          ("username", JVal.str "app"), ("password", JVal.str "cur")])
        (Fetch.payload [("engine", JVal.str "postgres"), ("host", JVal.str "db1"),
          ("username", JVal.str "app"), ("password", JVal.str "new")]) =
      (Except.ok (),
       [Ev.attemptP (JVal.str "db1") (JVal.str "app") (JVal.str "new")
          (JVal.str "postgres") 5432 (JVal.str "prefer"), Ev.closeConn]) ∧
      ∀ ev ∈ [Ev.attemptP (JVal.str "db1") (JVal.str "app") (JVal.str "new")
          (JVal.str "postgres") 5432 (JVal.str "prefer"), Ev.closeConn],
        isExecEv ev = false ∧ isPutEv ev = false) :=
  claim_C4_set_secret_idempotent
    (fun _ _ p _ _ _ => p == JVal.str "new") (fun _ _ p _ _ _ => p == JVal.str "new")
    Fetch.notFound
    (Fetch.payload [("engine", JVal.str "mariadb"), ("host", JVal.str "db1"),
      ("username", JVal.str "app"), ("password", JVal.str "cur")])
    (Fetch.payload [("engine", JVal.str "mariadb"), ("host", JVal.str "db1"),
      ("username", JVal.str "app"), ("password", JVal.str "new")])
    Fetch.notFound
    (Fetch.payload [("engine", JVal.str "postgres"), ("host", JVal.str "db1"),
      ("username", JVal.str "app"), ("password", JVal.str "cur")])
    (Fetch.payload [("engine", JVal.str "postgres"), ("host", JVal.str "db1"),
      ("username", JVal.str "app"), ("password", JVal.str "new")])
    [("engine", JVal.str "mariadb"), ("host", JVal.str "db1"),
      ("username", JVal.str "app"), ("password", JVal.str "cur")]
    [("engine", JVal.str "mariadb"), ("host", JVal.str "db1"),
      ("username", JVal.str "app"), ("password", JVal.str "new")]
    [("engine", JVal.str "postgres"), ("host", JVal.str "db1"),
      ("username", JVal.str "app"), ("password", JVal.str "new")]
    () ()
    [Ev.attemptM (JVal.str "db1") (JVal.str "app") (JVal.str "new") 3306 none true]
    [Ev.attemptP (JVal.str "db1") (JVal.str "app") (JVal.str "new")
      (JVal.str "postgres") 5432 (JVal.str "prefer")]
    (by decide) (by decide) (by decide) (by decide) (by decide)

/-- Claim C1 (amended): in the MariaDB variant, when the login with the
PENDING credential fails, the step validates that PENDING and CURRENT
carry the same username and the same host and raises a fatal
ValueError on mismatch before any connection attempt with the CURRENT
or PREVIOUS credential and before any password-change statement: the
final trace is exactly the pending login attempts, each carrying the
PENDING credential.  The PostgreSQL variant performs no such
validation. -/
theorem claim_C1_maria_validates_user_host_before_fallback
    (ora : MariaOracle) (prevF currF pendF : Fetch) (cd pd : SecretDict)
    (hP uP wP : JVal) (trP : List Ev)
    (h1 : get_secret_dict_maria currF = Except.ok cd)
    (h2 : get_secret_dict_maria pendF = Except.ok pd)
    (hPh : lookup pd "host" = some hP) (hPu : lookup pd "username" = some uP)
    (hPw : lookup pd "password" = some wP)
    (hconn : get_connection_maria ora pd = (Except.ok none, trP))
    (hmis : lookup cd "username" ≠ lookup pd "username" ∨
      lookup cd "host" ≠ lookup pd "host") :
    (∃ m, set_secret_maria ora prevF currF pendF =
      (Except.error (PyErr.valueError m), trP)) ∧
      (∀ ev ∈ trP, ∃ port db ssl, ev = Ev.attemptM hP uP wP port db ssl) := by
  obtain ⟨-, -, hostc, userc, -⟩ := get_secret_dict_maria_ok h1
  obtain ⟨hCv, hCh⟩ := Option.isSome_iff_exists.mp hostc
  obtain ⟨uCv, hCu⟩ := Option.isSome_iff_exists.mp userc
  constructor
  · by_cases husr : lookup cd "username" = lookup pd "username"
    · have hhost : lookup cd "host" ≠ lookup pd "host" := by
        rcases hmis with h | h
        · exact absurd husr h
        · exact h
      have hdu : dictNe cd pd "username" = Except.ok false := by
        rw [hPu] at husr
        rw [hCu] at husr
        simp [dictNe, hCu, hPu]
        simpa using husr
      have hdh : dictNe cd pd "host" = Except.ok true := by
        rw [hPh] at hhost
        rw [hCh] at hhost
        simp [dictNe, hCh, hPh]
        simpa using hhost
      exact ⟨"Attempting to modify user for host other than current host",
        by simp [set_secret_maria, h1, h2, hconn, hdu, hdh]⟩
    · have hdu : dictNe cd pd "username" = Except.ok true := by
        rw [hPu] at husr
        rw [hCu] at husr
        simp [dictNe, hCu, hPu]
        simpa using husr
      exact ⟨"Attempting to modify user other than current user",
        by simp [set_secret_maria, h1, h2, hconn, hdu]⟩
  · intro ev hev
    obtain ⟨h, u, p, port, db, ssl, rfl, hh, hu, hp⟩ :=
      get_connection_maria_trace ora pd ev (by rw [hconn]; exact hev)
    rw [hPh] at hh
    rw [hPu] at hu
    rw [hPw] at hp
    cases hh
    cases hu
    cases hp
    exact ⟨port, db, ssl, rfl⟩

/-- Witness for the amended claim C1: concrete payloads whose pending
username differs from the current one, with a database refusing every
login with the pending credential. -/
theorem claim_C1_maria_validates_user_host_before_fallback_witness :
    (∃ m, set_secret_maria (fun _ _ _ _ _ _ => false) Fetch.notFound
        (Fetch.payload [("engine", JVal.str "mariadb"), ("host", JVal.str "db1"),
          ("username", JVal.str "app"), ("password", JVal.str "cur")])
        (Fetch.payload [("engine", JVal.str "mariadb"), ("host", JVal.str "db1"),
          ("username", JVal.str "app2"), ("password", JVal.str "new")]) =
      (Except.error (PyErr.valueError m),
       [Ev.attemptM (JVal.str "db1") (JVal.str "app2") (JVal.str "new") 3306 none true,
        Ev.attemptM (JVal.str "db1") (JVal.str "app2") (JVal.str "new") 3306 none false])) ∧
    (∀ ev ∈ [Ev.attemptM (JVal.str "db1") (JVal.str "app2") (JVal.str "new") 3306 none true,
        Ev.attemptM (JVal.str "db1") (JVal.str "app2") (JVal.str "new") 3306 none false],
      ∃ port db ssl,
        ev = Ev.attemptM (JVal.str "db1") (JVal.str "app2") (JVal.str "new") port db ssl) :=
  claim_C1_maria_validates_user_host_before_fallback
    (fun _ _ _ _ _ _ => false) Fetch.notFound
    (Fetch.payload [("engine", JVal.str "mariadb"), ("host", JVal.str "db1"),
      ("username", JVal.str "app"), ("password", JVal.str "cur")])
    (Fetch.payload [("engine", JVal.str "mariadb"), ("host", JVal.str "db1"),
      ("username", JVal.str "app2"), ("password", JVal.str "new")])
    [("engine", JVal.str "mariadb"), ("host", JVal.str "db1"),
      ("username", JVal.str "app"), ("password", JVal.str "cur")]
    [("engine", JVal.str "mariadb"), ("host", JVal.str "db1"),
      ("username", JVal.str "app2"), ("password", JVal.str "new")]
    (JVal.str "db1") (JVal.str "app2") (JVal.str "new")
    [Ev.attemptM (JVal.str "db1") (JVal.str "app2") (JVal.str "new") 3306 none true,
     Ev.attemptM (JVal.str "db1") (JVal.str "app2") (JVal.str "new") 3306 none false]
    (by decide) (by decide) (by decide) (by decide) (by decide) (by decide)
    (Or.inl (by decide))

/-- Counterexample for claim C1 as stated: in the PostgreSQL variant,
with a PENDING username different from the CURRENT one, a failing
pending login and a succeeding current login, the step performs no
validation and executes the password-change statement for the pending
username, returning success. -/
theorem claim_C1_postgres_counterexample :
    lookup [("engine", JVal.str "postgres"), ("host", JVal.str "db1"),
        ("username", JVal.str "app"), ("password", JVal.str "cur")] "username" ≠
      lookup [("engine", JVal.str "postgres"), ("host", JVal.str "db1"),
        ("username", JVal.str "app2"), ("password", JVal.str "new")] "username" ∧
    set_secret_pg (fun _ u _ _ _ _ => u == JVal.str "app") Fetch.notFound
      (Fetch.payload [("engine", JVal.str "postgres"), ("host", JVal.str "db1"),
        ("username", JVal.str "app"), ("password", JVal.str "cur")])
      (Fetch.payload [("engine", JVal.str "postgres"), ("host", JVal.str "db1"),
        ("username", JVal.str "app2"), ("password", JVal.str "new")]) =
    (Except.ok (),
     [Ev.attemptP (JVal.str "db1") (JVal.str "app2") (JVal.str "new")
        (JVal.str "postgres") 5432 (JVal.str "prefer"),
      Ev.attemptP (JVal.str "db1") (JVal.str "app") (JVal.str "cur")
        (JVal.str "postgres") 5432 (JVal.str "prefer"),
      Ev.execStmt (alterRoleStmt (JVal.str "app2") (JVal.str "new")) none,
      Ev.commit, Ev.closeConn]) :=
  ⟨by decide, by decide⟩

/-- Claim C5 (amended): in the MariaDB variant, when the fallback
login with the PREVIOUS credential is attempted (pending and current
logins both failed and a PREVIOUS payload exists), the record used for
that attempt carries the transport-encryption entry of CURRENT
(the own ssl entry of PREVIOUS is discarded) while keeping the
credentials, the step trace extends the attempts on that patched
record, and PREVIOUS is re-validated against PENDING on username and
host with a fatal ValueError on mismatch.  The PostgreSQL variant does
neither. -/
theorem claim_C5_maria_fallback_uses_current_ssl
    (ora : MariaOracle) (prevF currF pendF : Fetch) (cd pd pvd : SecretDict)
    (tr1 tr2 : List Ev)
    (h1 : get_secret_dict_maria currF = Except.ok cd)
    (h2 : get_secret_dict_maria pendF = Except.ok pd)
    (hprev : get_secret_dict_maria prevF = Except.ok pvd)
    (hconnP : get_connection_maria ora pd = (Except.ok none, tr1))
    (hdu : dictNe cd pd "username" = Except.ok false)
    (hdh : dictNe cd pd "host" = Except.ok false)
    (hconnC : get_connection_maria ora cd = (Except.ok none, tr2)) :
    lookup (sslFromCurrent cd pvd) "ssl" = lookup cd "ssl" ∧
    lookup (sslFromCurrent cd pvd) "host" = lookup pvd "host" ∧
    lookup (sslFromCurrent cd pvd) "username" = lookup pvd "username" ∧
    lookup (sslFromCurrent cd pvd) "password" = lookup pvd "password" ∧
    (∀ r3 tr3, get_connection_maria ora (sslFromCurrent cd pvd) = (r3, tr3) →
      ∃ rest, (set_secret_maria ora prevF currF pendF).2 = tr1 ++ tr2 ++ tr3 ++ rest) ∧
    (∀ b3 tr3, get_connection_maria ora (sslFromCurrent cd pvd) = (Except.ok b3, tr3) →
      (lookup pvd "username" ≠ lookup pd "username" ∨
        lookup pvd "host" ≠ lookup pd "host") →
      ∃ m, (set_secret_maria ora prevF currF pendF).1 =
        Except.error (PyErr.valueError m)) := by
  obtain ⟨-, -, hostv, userv, passv⟩ := get_secret_dict_maria_ok hprev
  obtain ⟨hv, hvh⟩ := Option.isSome_iff_exists.mp hostv
  obtain ⟨uv, hvu⟩ := Option.isSome_iff_exists.mp userv
  obtain ⟨wv, hvw⟩ := Option.isSome_iff_exists.mp passv
  obtain ⟨-, -, -, userp, -⟩ := get_secret_dict_maria_ok h2
  obtain ⟨uP, hPu⟩ := Option.isSome_iff_exists.mp userp
  obtain ⟨-, -, hostp2, -, -⟩ := get_secret_dict_maria_ok h2
  obtain ⟨hPv, hPh⟩ := Option.isSome_iff_exists.mp hostp2
  have hssl1 : lookup (sslFromCurrent cd pvd) "ssl" = lookup cd "ssl" := by
    unfold sslFromCurrent
    cases hssl : lookup cd "ssl" with
    | some v => simp [lookup_setKey_self]
    | none => simp [lookup_delKey_self]
  have hkeep : ∀ k, k ≠ "ssl" →
      lookup (sslFromCurrent cd pvd) k = lookup pvd k := by
    intro k hk
    unfold sslFromCurrent
    cases hssl : lookup cd "ssl" with
    | some v => rw [lookup_setKey_ne _ _ _ _ hk, lookup_delKey_ne _ _ _ hk]
    | none => rw [lookup_delKey_ne _ _ _ hk]
  refine ⟨hssl1, hkeep "host" (by decide), hkeep "username" (by decide),
    hkeep "password" (by decide), ?_, ?_⟩
  · intro r3 tr3 hgc3
    cases r3 with
    | error e =>
        exact ⟨[], by simp [set_secret_maria, h1, h2, hconnP, hdu, hdh, hconnC,
          hprev, hgc3]⟩
    | ok b3 =>
        cases hdu2 : dictNe (sslFromCurrent cd pvd) pd "username" with
        | error e =>
            exact ⟨[], by simp [set_secret_maria, h1, h2, hconnP, hdu, hdh, hconnC,
              hprev, hgc3, hdu2]⟩
        | ok bu2 =>
          cases bu2 with
          | true =>
              exact ⟨[], by simp [set_secret_maria, h1, h2, hconnP, hdu, hdh, hconnC,
                hprev, hgc3, hdu2]⟩
          | false =>
            cases hdh2 : dictNe (sslFromCurrent cd pvd) pd "host" with
            | error e =>
                exact ⟨[], by simp [set_secret_maria, h1, h2, hconnP, hdu, hdh,
                  hconnC, hprev, hgc3, hdu2, hdh2]⟩
            | ok bh2 =>
              cases bh2 with
              | true =>
                  exact ⟨[], by simp [set_secret_maria, h1, h2, hconnP, hdu, hdh,
                    hconnC, hprev, hgc3, hdu2, hdh2]⟩
              | false =>
                cases b3 with
                | none =>
                    exact ⟨[], by simp [set_secret_maria, set_secret_maria_tail, h1,
                      h2, hconnP, hdu, hdh, hconnC, hprev, hgc3, hdu2, hdh2]⟩
                | some c =>
                    obtain ⟨-, -, -, -, passp⟩ := get_secret_dict_maria_ok h2
                    obtain ⟨pw, hpw⟩ := Option.isSome_iff_exists.mp passp
                    exact ⟨[Ev.execStmt "SET PASSWORD = PASSWORD(%s)" (some pw),
                        Ev.commit, Ev.closeConn],
                      by simp [set_secret_maria, set_secret_maria_tail, h1, h2,
                        hconnP, hdu, hdh, hconnC, hprev, hgc3, hdu2, hdh2, hpw]⟩
  · intro b3 tr3 hgc3 hmis
    have hu2 : lookup (sslFromCurrent cd pvd) "username" = some uv := by
      rw [hkeep "username" (by decide)]
      exact hvu
    have hh2 : lookup (sslFromCurrent cd pvd) "host" = some hv := by
      rw [hkeep "host" (by decide)]
      exact hvh
    by_cases husr : lookup pvd "username" = lookup pd "username"
    · have hhost : lookup pvd "host" ≠ lookup pd "host" := by
        rcases hmis with h | h
        · exact absurd husr h
        · exact h
      have hdu2 : dictNe (sslFromCurrent cd pvd) pd "username" = Except.ok false := by
        rw [hvu, hPu] at husr
        simp [dictNe, hu2, hPu]
        simpa using husr
      have hdh2 : dictNe (sslFromCurrent cd pvd) pd "host" = Except.ok true := by
        rw [hvh, hPh] at hhost
        simp [dictNe, hh2, hPh]
        simpa using hhost
      exact ⟨"Attempting to modify user for host other than previous host",
        by simp [set_secret_maria, h1, h2, hconnP, hdu, hdh, hconnC, hprev,
          hgc3, hdu2, hdh2]⟩
    · have hdu2 : dictNe (sslFromCurrent cd pvd) pd "username" = Except.ok true := by
        rw [hvu, hPu] at husr
        simp [dictNe, hu2, hPu]
        simpa using husr
      exact ⟨"Attempting to modify user other than last valid user",
        by simp [set_secret_maria, h1, h2, hconnP, hdu, hdh, hconnC, hprev,
          hgc3, hdu2]⟩

/-- Witness for the amended claim C5: concrete payloads where the
current record carries `ssl: true`, the previous record carries its
own `ssl: "false"` and a different username, and no login succeeds. -/
theorem claim_C5_maria_fallback_uses_current_ssl_witness :
    lookup (sslFromCurrent
      [("engine", JVal.str "mariadb"), ("host", JVal.str "db1"),
       ("username", JVal.str "app"), ("password", JVal.str "cur"),
       ("ssl", JVal.bool true)]
      [("engine", JVal.str "mariadb"), ("host", JVal.str "db1"),
       ("username", JVal.str "other"), ("password", JVal.str "old"),
       ("ssl", JVal.str "false")]) "ssl" = some (JVal.bool true) ∧
    lookup (sslFromCurrent
      [("engine", JVal.str "mariadb"), ("host", JVal.str "db1"),
       ("username", JVal.str "app"), ("password", JVal.str "cur"),
       ("ssl", JVal.bool true)]
      [("engine", JVal.str "mariadb"), ("host", JVal.str "db1"),
       ("username", JVal.str "other"), ("password", JVal.str "old"),
       ("ssl", JVal.str "false")]) "username" = some (JVal.str "other") ∧
    (∃ rest, (set_secret_maria (fun _ _ _ _ _ _ => false)
      (Fetch.payload [("engine", JVal.str "mariadb"), ("host", JVal.str "db1"),
        ("username", JVal.str "other"), ("password", JVal.str "old"),
        ("ssl", JVal.str "false")])
      (Fetch.payload [("engine", JVal.str "mariadb"), ("host", JVal.str "db1"),
        ("username", JVal.str "app"), ("password", JVal.str "cur"),
        ("ssl", JVal.bool true)])
      (Fetch.payload [("engine", JVal.str "mariadb"), ("host", JVal.str "db1"),
        ("username", JVal.str "app"), ("password", JVal.str "new")])).2 =
      [Ev.attemptM (JVal.str "db1") (JVal.str "app") (JVal.str "new") 3306 none true,
       Ev.attemptM (JVal.str "db1") (JVal.str "app") (JVal.str "new") 3306 none false] ++
      [Ev.attemptM (JVal.str "db1") (JVal.str "app") (JVal.str "cur") 3306 none true] ++
      [Ev.attemptM (JVal.str "db1") (JVal.str "other") (JVal.str "old") 3306 none true] ++
      rest) ∧
    (∃ m, (set_secret_maria (fun _ _ _ _ _ _ => false)
      (Fetch.payload [("engine", JVal.str "mariadb"), ("host", JVal.str "db1"),
        ("username", JVal.str "other"), ("password", JVal.str "old"),
        ("ssl", JVal.str "false")])
      (Fetch.payload [("engine", JVal.str "mariadb"), ("host", JVal.str "db1"),
        ("username", JVal.str "app"), ("password", JVal.str "cur"),
        ("ssl", JVal.bool true)])
      (Fetch.payload [("engine", JVal.str "mariadb"), ("host", JVal.str "db1"),
        ("username", JVal.str "app"), ("password", JVal.str "new")])).1 =
      Except.error (PyErr.valueError m)) := by
  have H := claim_C5_maria_fallback_uses_current_ssl
    (fun _ _ _ _ _ _ => false)
    (Fetch.payload [("engine", JVal.str "mariadb"), ("host", JVal.str "db1"),
      ("username", JVal.str "other"), ("password", JVal.str "old"),
      ("ssl", JVal.str "false")])
    (Fetch.payload [("engine", JVal.str "mariadb"), ("host", JVal.str "db1"),
      ("username", JVal.str "app"), ("password", JVal.str "cur"),
      ("ssl", JVal.bool true)])
    (Fetch.payload [("engine", JVal.str "mariadb"), ("host", JVal.str "db1"),
      ("username", JVal.str "app"), ("password", JVal.str "new")])
    [("engine", JVal.str "mariadb"), ("host", JVal.str "db1"),
      ("username", JVal.str "app"), ("password", JVal.str "cur"),
      ("ssl", JVal.bool true)]
    [("engine", JVal.str "mariadb"), ("host", JVal.str "db1"),
      ("username", JVal.str "app"), ("password", JVal.str "new")]
    [("engine", JVal.str "mariadb"), ("host", JVal.str "db1"),
      ("username", JVal.str "other"), ("password", JVal.str "old"),
      ("ssl", JVal.str "false")]
    [Ev.attemptM (JVal.str "db1") (JVal.str "app") (JVal.str "new") 3306 none true,
     Ev.attemptM (JVal.str "db1") (JVal.str "app") (JVal.str "new") 3306 none false]
    [Ev.attemptM (JVal.str "db1") (JVal.str "app") (JVal.str "cur") 3306 none true]
    (by decide) (by decide) (by decide) (by decide) (by decide) (by decide) (by decide)
  refine ⟨H.1.trans (by decide), (H.2.2.1).trans (by decide), ?_, ?_⟩
  · exact H.2.2.2.2.1 (Except.ok none)
      [Ev.attemptM (JVal.str "db1") (JVal.str "other") (JVal.str "old") 3306 none true]
      (by decide)
  · exact H.2.2.2.2.2 none
      [Ev.attemptM (JVal.str "db1") (JVal.str "other") (JVal.str "old") 3306 none true]
      (by decide) (Or.inl (by decide))

/-- Counterexample for claim C5 as stated: in the PostgreSQL variant,
with pending and current logins failing and a PREVIOUS payload whose
username differs from PENDING and whose own sslmode differs from
CURRENT, the fallback attempt uses the own sslmode of PREVIOUS, no
re-validation is performed, the step still executes the
password-change statement and succeeds. -/
theorem claim_C5_postgres_counterexample :
    lookup [("engine", JVal.str "postgres"), ("host", JVal.str "db1"),
        ("username", JVal.str "other"), ("password", JVal.str "old"),
        ("sslmode", JVal.str "disable")] "sslmode" ≠
      lookup [("engine", JVal.str "postgres"), ("host", JVal.str "db1"),
        ("username", JVal.str "app"), ("password", JVal.str "cur"),
        ("sslmode", JVal.str "require")] "sslmode" ∧
    lookup [("engine", JVal.str "postgres"), ("host", JVal.str "db1"),
        ("username", JVal.str "other"), ("password", JVal.str "old"),
        ("sslmode", JVal.str "disable")] "username" ≠
      lookup [("engine", JVal.str "postgres"), ("host", JVal.str "db1"),
        ("username", JVal.str "app2"), ("password", JVal.str "new")] "username" ∧
    set_secret_pg (fun _ u _ _ _ _ => u == JVal.str "other")
      (Fetch.payload [("engine", JVal.str "postgres"), ("host", JVal.str "db1"),
        ("username", JVal.str "other"), ("password", JVal.str "old"),
        ("sslmode", JVal.str "disable")])
      (Fetch.payload [("engine", JVal.str "postgres"), ("host", JVal.str "db1"),
        ("username", JVal.str "app"), ("password", JVal.str "cur"),
        ("sslmode", JVal.str "require")])
      (Fetch.payload [("engine", JVal.str "postgres"), ("host", JVal.str "db1"),
        ("username", JVal.str "app2"), ("password", JVal.str "new")]) =
    (Except.ok (),
     [Ev.attemptP (JVal.str "db1") (JVal.str "app2") (JVal.str "new")
        (JVal.str "postgres") 5432 (JVal.str "prefer"),
      Ev.attemptP (JVal.str "db1") (JVal.str "app") (JVal.str "cur")
        (JVal.str "postgres") 5432 (JVal.str "require"),
      Ev.attemptP (JVal.str "db1") (JVal.str "other") (JVal.str "old")
        (JVal.str "postgres") 5432 (JVal.str "disable"),
      Ev.execStmt (alterRoleStmt (JVal.str "app2") (JVal.str "new")) none,
      Ev.commit, Ev.closeConn]) :=
  ⟨by decide, by decide, by decide⟩

theorem generate_connection_string_maria_ok (d : SecretDict) (pw : String)
    (hh0 : (lookup d "host").isSome = true) (hu0 : (lookup d "username").isSome = true) :
    ∃ cs, generate_connection_string_maria d pw = Except.ok cs := by
  obtain ⟨hv, hh⟩ := Option.isSome_iff_exists.mp hh0
  obtain ⟨uv, hu⟩ := Option.isSome_iff_exists.mp hu0
  cases hx : generate_connection_string_maria d pw with
  | ok cs => exact ⟨cs, rfl⟩
  | error e =>
      exfalso
      by_cases h1 : pyGet d "connection_string_type" = JVal.str "jdbc"
      · simp [generate_connection_string_maria, h1, hh, hu] at hx
      · by_cases h2 : pyGet d "connection_string_type" = JVal.str "dotnet"
        · simp [generate_connection_string_maria, h1, h2, hh, hu] at hx
        · by_cases h3 : pyGet d "connection_string_type" = JVal.str "odbc"
          · simp [generate_connection_string_maria, h1, h2, h3, hh, hu] at hx
          · by_cases h4 : pyGet d "connection_string_type" = JVal.str "gopq"
            · simp [generate_connection_string_maria, h1, h2, h3, h4, hh, hu] at hx
            · by_cases h5 : pyGet d "connection_string_type" = JVal.str "node-pg" ∨
                pyGet d "connection_string_type" = JVal.str "psycopg" ∨
                pyGet d "connection_string_type" = JVal.str "rustpg"
              · simp [generate_connection_string_maria, h1, h2, h3, h4, h5, hh, hu] at hx
              · simp [generate_connection_string_maria, h1, h2, h3, h4, h5] at hx

theorem generate_connection_string_pg_ok (d : SecretDict) (pw : String)
    (hh0 : (lookup d "host").isSome = true) (hu0 : (lookup d "username").isSome = true) :
    ∃ cs, generate_connection_string_pg d pw = Except.ok cs := by
  obtain ⟨hv, hh⟩ := Option.isSome_iff_exists.mp hh0
  obtain ⟨uv, hu⟩ := Option.isSome_iff_exists.mp hu0
  cases hx : generate_connection_string_pg d pw with
  | ok cs => exact ⟨cs, rfl⟩
  | error e =>
      exfalso
      by_cases h1 : pyGet d "connection_string_type" = JVal.str "jdbc"
      · simp [generate_connection_string_pg, h1, hh, hu] at hx
      · by_cases h2 : pyGet d "connection_string_type" = JVal.str "dotnet"
        · simp [generate_connection_string_pg, h1, h2, hh, hu] at hx
        · by_cases h3 : pyGet d "connection_string_type" = JVal.str "odbc"
          · simp [generate_connection_string_pg, h1, h2, h3, hh, hu] at hx
          · by_cases h4 : pyGet d "connection_string_type" = JVal.str "gopq"
            · simp [generate_connection_string_pg, h1, h2, h3, h4, hh, hu] at hx
            · by_cases h5 : pyGet d "connection_string_type" = JVal.str "node-pg" ∨
                pyGet d "connection_string_type" = JVal.str "psycopg" ∨
                pyGet d "connection_string_type" = JVal.str "rustpg"
              · simp [generate_connection_string_pg, h1, h2, h3, h4, h5, hh, hu] at hx
              · simp [generate_connection_string_pg, h1, h2, h3, h4, h5] at hx

theorem create_secret_maria_fresh (currF : Fetch) (cd : SecretDict) (r r2 : String)
    (h1 : get_secret_dict_maria currF = Except.ok cd) :
    ∃ d2, create_secret_maria currF Fetch.notFound r =
        (Except.ok (), [Ev.genPassword, Ev.putSecret d2 ["AWSPENDING"]]) ∧
      lookup d2 "password" = some (JVal.str r) ∧
      (∀ k, k ≠ "password" → k ≠ "connection_string" → lookup d2 k = lookup cd k) ∧
      (hasKey cd "connection_string" = false → d2 = setKey cd "password" (JVal.str r)) ∧
      get_secret_dict_maria (Fetch.payload d2) = Except.ok d2 ∧
      create_secret_maria currF (Fetch.payload d2) r2 = (Except.ok (), []) := by
  obtain ⟨-, heng, hhost, huser, -⟩ := get_secret_dict_maria_ok h1
  have hnf : get_secret_dict_maria Fetch.notFound =
      Except.error PyErr.resourceNotFound := rfl
  have hd1pass : lookup (setKey cd "password" (JVal.str r)) "password" =
      some (JVal.str r) := lookup_setKey_self _ _ _
  have hd1keep : ∀ k, k ≠ "password" →
      lookup (setKey cd "password" (JVal.str r)) k = lookup cd k :=
    fun k hk => lookup_setKey_ne _ _ _ _ hk
  by_cases hcs : hasKey (setKey cd "password" (JVal.str r)) "connection_string" = true
  · obtain ⟨cs, hgcs⟩ := generate_connection_string_maria_ok
      (setKey cd "password" (JVal.str r)) r
      (by rw [hd1keep "host" (by decide)]; exact hhost)
      (by rw [hd1keep "username" (by decide)]; exact huser)
    refine ⟨setKey (setKey cd "password" (JVal.str r)) "connection_string" (JVal.str cs),
      ?_, ?_, ?_, ?_, ?_, ?_⟩
    · simp [create_secret_maria, hnf, h1, hcs, hgcs]
    · rw [lookup_setKey_ne _ _ _ _ (by decide)]
      exact hd1pass
    · intro k hk1 hk2
      rw [lookup_setKey_ne _ _ _ _ hk2]
      exact hd1keep k hk1
    · intro hno
      exfalso
      rw [show hasKey (setKey cd "password" (JVal.str r)) "connection_string" =
          hasKey cd "connection_string" by
        unfold hasKey
        rw [hd1keep "connection_string" (by decide)]] at hcs
      rw [hno] at hcs
      cases hcs
    · apply get_secret_dict_maria_payload_ok
      · rw [show mariaEngineOk (setKey (setKey cd "password" (JVal.str r))
            "connection_string" (JVal.str cs)) = mariaEngineOk cd by
          unfold mariaEngineOk
          rw [lookup_setKey_ne _ _ _ _ (by decide), hd1keep "engine" (by decide)]]
        exact heng
      · rw [show hasKey (setKey (setKey cd "password" (JVal.str r))
            "connection_string" (JVal.str cs)) "host" = hasKey cd "host" by
          unfold hasKey
          rw [lookup_setKey_ne _ _ _ _ (by decide), hd1keep "host" (by decide)]]
        exact hhost
      · rw [show hasKey (setKey (setKey cd "password" (JVal.str r))
            "connection_string" (JVal.str cs)) "username" = hasKey cd "username" by
          unfold hasKey
          rw [lookup_setKey_ne _ _ _ _ (by decide), hd1keep "username" (by decide)]]
        exact huser
      · unfold hasKey
        rw [lookup_setKey_ne _ _ _ _ (by decide)]
        rw [hd1pass]
        rfl
    · have hval : get_secret_dict_maria (Fetch.payload (setKey (setKey cd "password"
          (JVal.str r)) "connection_string" (JVal.str cs))) =
          Except.ok (setKey (setKey cd "password" (JVal.str r))
            "connection_string" (JVal.str cs)) := by
        apply get_secret_dict_maria_payload_ok
        · rw [show mariaEngineOk (setKey (setKey cd "password" (JVal.str r))
              "connection_string" (JVal.str cs)) = mariaEngineOk cd by
            unfold mariaEngineOk
            rw [lookup_setKey_ne _ _ _ _ (by decide), hd1keep "engine" (by decide)]]
          exact heng
        · rw [show hasKey (setKey (setKey cd "password" (JVal.str r))
              "connection_string" (JVal.str cs)) "host" = hasKey cd "host" by
            unfold hasKey
            rw [lookup_setKey_ne _ _ _ _ (by decide), hd1keep "host" (by decide)]]
          exact hhost
        · rw [show hasKey (setKey (setKey cd "password" (JVal.str r))
              "connection_string" (JVal.str cs)) "username" = hasKey cd "username" by
            unfold hasKey
            rw [lookup_setKey_ne _ _ _ _ (by decide), hd1keep "username" (by decide)]]
          exact huser
        · unfold hasKey
          rw [lookup_setKey_ne _ _ _ _ (by decide)]
          rw [hd1pass]
          rfl
      simp [create_secret_maria, h1, hval]
  · refine ⟨setKey cd "password" (JVal.str r), ?_, hd1pass, ?_, fun _ => rfl, ?_, ?_⟩
    · simp [create_secret_maria, hnf, h1, hcs]
    · intro k hk1 hk2
      exact hd1keep k hk1
    · apply get_secret_dict_maria_payload_ok
      · rw [show mariaEngineOk (setKey cd "password" (JVal.str r)) = mariaEngineOk cd by
          unfold mariaEngineOk
          rw [hd1keep "engine" (by decide)]]
        exact heng
      · rw [show hasKey (setKey cd "password" (JVal.str r)) "host" = hasKey cd "host" by
          unfold hasKey
          rw [hd1keep "host" (by decide)]]
        exact hhost
      · rw [show hasKey (setKey cd "password" (JVal.str r)) "username" =
            hasKey cd "username" by
          unfold hasKey
          rw [hd1keep "username" (by decide)]]
        exact huser
      · unfold hasKey
        rw [hd1pass]
        rfl
    · have hval : get_secret_dict_maria (Fetch.payload (setKey cd "password"
          (JVal.str r))) = Except.ok (setKey cd "password" (JVal.str r)) := by
        apply get_secret_dict_maria_payload_ok
        · rw [show mariaEngineOk (setKey cd "password" (JVal.str r)) =
              mariaEngineOk cd by
            unfold mariaEngineOk
            rw [hd1keep "engine" (by decide)]]
          exact heng
        · rw [show hasKey (setKey cd "password" (JVal.str r)) "host" =
              hasKey cd "host" by
            unfold hasKey
            rw [hd1keep "host" (by decide)]]
          exact hhost
        · rw [show hasKey (setKey cd "password" (JVal.str r)) "username" =
              hasKey cd "username" by
            unfold hasKey
            rw [hd1keep "username" (by decide)]]
          exact huser
        · unfold hasKey
          rw [hd1pass]
          rfl
      simp [create_secret_maria, h1, hval]

theorem create_secret_pg_fresh (currF : Fetch) (cd : SecretDict) (r r2 : String)
    (h1 : get_secret_dict_pg currF = Except.ok cd) :
    ∃ d2, create_secret_pg currF Fetch.notFound r =
        (Except.ok (), [Ev.genPassword, Ev.putSecret d2 ["AWSPENDING"]]) ∧
      lookup d2 "password" = some (JVal.str r) ∧
      (∀ k, k ≠ "password" → k ≠ "connection_string" → lookup d2 k = lookup cd k) ∧
      (hasKey cd "connection_string" = false → d2 = setKey cd "password" (JVal.str r)) ∧
      get_secret_dict_pg (Fetch.payload d2) = Except.ok d2 ∧
      create_secret_pg currF (Fetch.payload d2) r2 = (Except.ok (), []) := by
  obtain ⟨-, heng, hhost, huser, -⟩ := get_secret_dict_pg_ok h1
  have hnf : get_secret_dict_pg Fetch.notFound =
      Except.error PyErr.resourceNotFound := rfl
  have hd1pass : lookup (setKey cd "password" (JVal.str r)) "password" =
      some (JVal.str r) := lookup_setKey_self _ _ _
  have hd1keep : ∀ k, k ≠ "password" →
      lookup (setKey cd "password" (JVal.str r)) k = lookup cd k :=
    fun k hk => lookup_setKey_ne _ _ _ _ hk
  by_cases hcs : hasKey (setKey cd "password" (JVal.str r)) "connection_string" = true
  · obtain ⟨cs, hgcs⟩ := generate_connection_string_pg_ok
      (setKey cd "password" (JVal.str r)) r
      (by rw [hd1keep "host" (by decide)]; exact hhost)
      (by rw [hd1keep "username" (by decide)]; exact huser)
    refine ⟨setKey (setKey cd "password" (JVal.str r)) "connection_string" (JVal.str cs),
      ?_, ?_, ?_, ?_, ?_, ?_⟩
    · simp [create_secret_pg, hnf, h1, hcs, hgcs]
    · rw [lookup_setKey_ne _ _ _ _ (by decide)]
      exact hd1pass
    · intro k hk1 hk2
      rw [lookup_setKey_ne _ _ _ _ hk2]
      exact hd1keep k hk1
    · intro hno
      exfalso
      rw [show hasKey (setKey cd "password" (JVal.str r)) "connection_string" =
          hasKey cd "connection_string" by
        unfold hasKey
        rw [hd1keep "connection_string" (by decide)]] at hcs
      rw [hno] at hcs
      cases hcs
    · apply get_secret_dict_pg_payload_ok
      · rw [show pgEngineOk (setKey (setKey cd "password" (JVal.str r))
            "connection_string" (JVal.str cs)) = pgEngineOk cd by
          unfold pgEngineOk
          rw [lookup_setKey_ne _ _ _ _ (by decide), hd1keep "engine" (by decide)]]
        exact heng
      · rw [show hasKey (setKey (setKey cd "password" (JVal.str r))
            "connection_string" (JVal.str cs)) "host" = hasKey cd "host" by
          unfold hasKey
          rw [lookup_setKey_ne _ _ _ _ (by decide), hd1keep "host" (by decide)]]
        exact hhost
      · rw [show hasKey (setKey (setKey cd "password" (JVal.str r))
            "connection_string" (JVal.str cs)) "username" = hasKey cd "username" by
          unfold hasKey
          rw [lookup_setKey_ne _ _ _ _ (by decide), hd1keep "username" (by decide)]]
        exact huser
      · unfold hasKey
        rw [lookup_setKey_ne _ _ _ _ (by decide)]
        rw [hd1pass]
        rfl
    · have hval : get_secret_dict_pg (Fetch.payload (setKey (setKey cd "password"
          (JVal.str r)) "connection_string" (JVal.str cs))) =
          Except.ok (setKey (setKey cd "password" (JVal.str r))
            "connection_string" (JVal.str cs)) := by
        apply get_secret_dict_pg_payload_ok
        · rw [show pgEngineOk (setKey (setKey cd "password" (JVal.str r))
              "connection_string" (JVal.str cs)) = pgEngineOk cd by
            unfold pgEngineOk
            rw [lookup_setKey_ne _ _ _ _ (by decide), hd1keep "engine" (by decide)]]
          exact heng
        · rw [show hasKey (setKey (setKey cd "password" (JVal.str r))
              "connection_string" (JVal.str cs)) "host" = hasKey cd "host" by
            unfold hasKey
            rw [lookup_setKey_ne _ _ _ _ (by decide), hd1keep "host" (by decide)]]
          exact hhost
        · rw [show hasKey (setKey (setKey cd "password" (JVal.str r))
              "connection_string" (JVal.str cs)) "username" = hasKey cd "username" by
            unfold hasKey
            rw [lookup_setKey_ne _ _ _ _ (by decide), hd1keep "username" (by decide)]]
          exact huser
        · unfold hasKey
          rw [lookup_setKey_ne _ _ _ _ (by decide)]
          rw [hd1pass]
          rfl
      simp [create_secret_pg, h1, hval]
  · refine ⟨setKey cd "password" (JVal.str r), ?_, hd1pass, ?_, fun _ => rfl, ?_, ?_⟩
    · simp [create_secret_pg, hnf, h1, hcs]
    · intro k hk1 hk2
      exact hd1keep k hk1
    · apply get_secret_dict_pg_payload_ok
      · rw [show pgEngineOk (setKey cd "password" (JVal.str r)) = pgEngineOk cd by
          unfold pgEngineOk
          rw [hd1keep "engine" (by decide)]]
        exact heng
      · rw [show hasKey (setKey cd "password" (JVal.str r)) "host" = hasKey cd "host" by
          unfold hasKey
          rw [hd1keep "host" (by decide)]]
        exact hhost
      · rw [show hasKey (setKey cd "password" (JVal.str r)) "username" =
            hasKey cd "username" by
          unfold hasKey
          rw [hd1keep "username" (by decide)]]
        exact huser
      · unfold hasKey
        rw [hd1pass]
        rfl
    · have hval : get_secret_dict_pg (Fetch.payload (setKey cd "password"
          (JVal.str r))) = Except.ok (setKey cd "password" (JVal.str r)) := by
        apply get_secret_dict_pg_payload_ok
        · rw [show pgEngineOk (setKey cd "password" (JVal.str r)) =
              pgEngineOk cd by
            unfold pgEngineOk
            rw [hd1keep "engine" (by decide)]]
          exact heng
        · rw [show hasKey (setKey cd "password" (JVal.str r)) "host" =
              hasKey cd "host" by
            unfold hasKey
            rw [hd1keep "host" (by decide)]]
          exact hhost
        · rw [show hasKey (setKey cd "password" (JVal.str r)) "username" =
              hasKey cd "username" by
            unfold hasKey
            rw [hd1keep "username" (by decide)]]
          exact huser
        · unfold hasKey
          rw [hd1pass]
          rfl
      simp [create_secret_pg, h1, hval]

/-- Claim C7: the create-secret step is idempotent.  In both engine
variants, when a valid PENDING payload already exists for the token
the step generates no password and writes nothing, so a second call
leaves the PENDING payload unchanged; when the PENDING payload is
absent the step generates one random password and stores, under
AWSPENDING, the CURRENT payload with its password replaced and its
connection_string regenerated only when the template holds one — and a
retry on the stored payload is a no-op; any other pending fetch
failure, and any current fetch failure, propagates. -/
theorem claim_C7_create_secret_idempotent
    (currF pendF currG pendG : Fetch) (cd qd : SecretDict) (r r2 : String)
    (h1M : get_secret_dict_maria currF = Except.ok cd)
    (h1P : get_secret_dict_pg currG = Except.ok qd) :
    (∀ p, get_secret_dict_maria pendF = Except.ok p →
      create_secret_maria currF pendF r = (Except.ok (), [])) ∧
    (∀ p, get_secret_dict_pg pendG = Except.ok p →
      create_secret_pg currG pendG r = (Except.ok (), [])) ∧
    (∀ e, e ≠ PyErr.resourceNotFound → get_secret_dict_maria pendF = Except.error e →
      create_secret_maria currF pendF r = (Except.error e, [])) ∧
    (∀ e, e ≠ PyErr.resourceNotFound → get_secret_dict_pg pendG = Except.error e →
      create_secret_pg currG pendG r = (Except.error e, [])) ∧
    (∀ f e, get_secret_dict_maria f = Except.error e →
      create_secret_maria f pendF r = (Except.error e, [])) ∧
    (∀ f e, get_secret_dict_pg f = Except.error e →
      create_secret_pg f pendG r = (Except.error e, [])) ∧
    (∃ d2, create_secret_maria currF Fetch.notFound r =
        (Except.ok (), [Ev.genPassword, Ev.putSecret d2 ["AWSPENDING"]]) ∧
      lookup d2 "password" = some (JVal.str r) ∧
      (∀ k, k ≠ "password" → k ≠ "connection_string" → lookup d2 k = lookup cd k) ∧
      (hasKey cd "connection_string" = false → d2 = setKey cd "password" (JVal.str r)) ∧
      get_secret_dict_maria (Fetch.payload d2) = Except.ok d2 ∧
      create_secret_maria currF (Fetch.payload d2) r2 = (Except.ok (), [])) ∧
    (∃ d2, create_secret_pg currG Fetch.notFound r =
        (Except.ok (), [Ev.genPassword, Ev.putSecret d2 ["AWSPENDING"]]) ∧
      lookup d2 "password" = some (JVal.str r) ∧
      (∀ k, k ≠ "password" → k ≠ "connection_string" → lookup d2 k = lookup qd k) ∧
      (hasKey qd "connection_string" = false → d2 = setKey qd "password" (JVal.str r)) ∧
      get_secret_dict_pg (Fetch.payload d2) = Except.ok d2 ∧
      create_secret_pg currG (Fetch.payload d2) r2 = (Except.ok (), [])) := by
  refine ⟨?_, ?_, ?_, ?_, ?_, ?_, ?_, ?_⟩
  · intro p hp
    simp [create_secret_maria, h1M, hp]
  · intro p hp
    simp [create_secret_pg, h1P, hp]
  · intro e he hp
    cases e with
    | resourceNotFound => exact absurd rfl he
    | keyError m => simp [create_secret_maria, h1M, hp]
    | valueError m => simp [create_secret_maria, h1M, hp]
    | typeError m => simp [create_secret_maria, h1M, hp]
  · intro e he hp
    cases e with
    | resourceNotFound => exact absurd rfl he
    | keyError m => simp [create_secret_pg, h1P, hp]
    | valueError m => simp [create_secret_pg, h1P, hp]
    | typeError m => simp [create_secret_pg, h1P, hp]
  · intro f e hf
    simp [create_secret_maria, hf]
  · intro f e hf
    simp [create_secret_pg, hf]
  · exact create_secret_maria_fresh currF cd r r2 h1M
  · exact create_secret_pg_fresh currG qd r r2 h1P

/-- Witness for claim C7: concrete current and pending payloads for
each engine, with a retry on an existing pending payload and a fresh
generation when the pending payload is absent. -/
theorem claim_C7_create_secret_idempotent_witness :
    create_secret_maria
      (Fetch.payload [("engine", JVal.str "mariadb"), ("host", JVal.str "db1"),
        ("username", JVal.str "app"), ("password", JVal.str "cur")])
      (Fetch.payload [("engine", JVal.str "mariadb"), ("host", JVal.str "db1"),
        ("username", JVal.str "app"), ("password", JVal.str "new")])
      "freshpw" = (Except.ok (), []) ∧
    create_secret_pg
      (Fetch.payload [("engine", JVal.str "postgres"), ("host", JVal.str "db1"),
        ("username", JVal.str "app"), ("password", JVal.str "cur")])
      (Fetch.payload [("engine", JVal.str "postgres"), ("host", JVal.str "db1"),
        ("username", JVal.str "app"), ("password", JVal.str "new")])
      "freshpw" = (Except.ok (), []) ∧
    (∃ d2, create_secret_maria
        (Fetch.payload [("engine", JVal.str "mariadb"), ("host", JVal.str "db1"),
          ("username", JVal.str "app"), ("password", JVal.str "cur")])
        Fetch.notFound "freshpw" =
        (Except.ok (), [Ev.genPassword, Ev.putSecret d2 ["AWSPENDING"]]) ∧
      lookup d2 "password" = some (JVal.str "freshpw") ∧
      (∀ k, k ≠ "password" → k ≠ "connection_string" →
        lookup d2 k = lookup [("engine", JVal.str "mariadb"), ("host", JVal.str "db1"),
          ("username", JVal.str "app"), ("password", JVal.str "cur")] k) ∧
      (hasKey [("engine", JVal.str "mariadb"), ("host", JVal.str "db1"),
          ("username", JVal.str "app"), ("password", JVal.str "cur")]
          "connection_string" = false →
        d2 = setKey [("engine", JVal.str "mariadb"), ("host", JVal.str "db1"),
          ("username", JVal.str "app"), ("password", JVal.str "cur")]
          "password" (JVal.str "freshpw")) ∧
      get_secret_dict_maria (Fetch.payload d2) = Except.ok d2 ∧
      create_secret_maria
        (Fetch.payload [("engine", JVal.str "mariadb"), ("host", JVal.str "db1"),
          ("username", JVal.str "app"), ("password", JVal.str "cur")])
        (Fetch.payload d2) "otherpw" = (Except.ok (), [])) := by
  have H := claim_C7_create_secret_idempotent
    (Fetch.payload [("engine", JVal.str "mariadb"), ("host", JVal.str "db1"),
      ("username", JVal.str "app"), ("password", JVal.str "cur")])
    (Fetch.payload [("engine", JVal.str "mariadb"), ("host", JVal.str "db1"),
      ("username", JVal.str "app"), ("password", JVal.str "new")])
    (Fetch.payload [("engine", JVal.str "postgres"), ("host", JVal.str "db1"),
      ("username", JVal.str "app"), ("password", JVal.str "cur")])
    (Fetch.payload [("engine", JVal.str "postgres"), ("host", JVal.str "db1"),
      ("username", JVal.str "app"), ("password", JVal.str "new")])
    [("engine", JVal.str "mariadb"), ("host", JVal.str "db1"),
      ("username", JVal.str "app"), ("password", JVal.str "cur")]
    [("engine", JVal.str "postgres"), ("host", JVal.str "db1"),
      ("username", JVal.str "app"), ("password", JVal.str "cur")]
    "freshpw" "otherpw" (by decide) (by decide)
  exact ⟨H.1 [("engine", JVal.str "mariadb"), ("host", JVal.str "db1"),
      ("username", JVal.str "app"), ("password", JVal.str "new")] (by decide),
    H.2.1 [("engine", JVal.str "postgres"), ("host", JVal.str "db1"),
      ("username", JVal.str "app"), ("password", JVal.str "new")] (by decide),
    H.2.2.2.2.2.2.1⟩

theorem quote_plus_append (a b : String) :
    quote_plus (a ++ b) = quote_plus a ++ quote_plus b := by
  unfold quote_plus
  show String.mk (((a.data ++ b.data).map quotePlusChar).flatten) =
    String.mk ((a.data.map quotePlusChar).flatten ++ (b.data.map quotePlusChar).flatten)
  rw [List.map_append, List.flatten_append]

theorem quote_plus_space : quote_plus " " = "+" := by decide

/-- Claim C10 (amended): the connection-string formatter is a pure
function of the type tag, the credential record and the new password.
An unrecognized `connection_string_type` yields the sentinel string in
both variants without raising.  The password is URL-encoded with the
quote-plus scheme, which renders a space as a plus sign (not as a
percent escape) and percent-escapes other reserved bytes.  For type
jdbc with the port absent the default 5432 is rendered, and the
password segment carries the quote-plus encoding of the password. -/
theorem claim_C10_connection_string_formatter (d : SecretDict) (pw : String)
    (hv uv : JVal)
    (hjdbc : pyGet d "connection_string_type" = JVal.str "jdbc")
    (hport : lookup d "port" = none)
    (hh : lookup d "host" = some hv)
    (hu : lookup d "username" = some uv) :
    (∀ d2 pw2,
      pyGet d2 "connection_string_type" ≠ JVal.str "jdbc" →
      pyGet d2 "connection_string_type" ≠ JVal.str "dotnet" →
      pyGet d2 "connection_string_type" ≠ JVal.str "odbc" →
      pyGet d2 "connection_string_type" ≠ JVal.str "gopq" →
      pyGet d2 "connection_string_type" ≠ JVal.str "node-pg" →
      pyGet d2 "connection_string_type" ≠ JVal.str "psycopg" →
      pyGet d2 "connection_string_type" ≠ JVal.str "rustpg" →
      generate_connection_string_pg d2 pw2 =
        Except.ok "(connection string type not supported)" ∧
      generate_connection_string_maria d2 pw2 =
        Except.ok "(connection string type not supported)") ∧
    (∀ s t, quote_plus (s ++ " " ++ t) = quote_plus s ++ "+" ++ quote_plus t) ∧
    pyStr (JVal.num 5432) = "5432" ∧
    generate_connection_string_pg d pw =
      Except.ok ("jdbc:postgresql://" ++ pyStr hv ++ ":" ++ pyStr (JVal.num 5432) ++
        "/" ++ pyStr (pyGet d "dbname") ++ "?user=" ++ pyStr uv ++
        "&password=" ++ quote_plus pw ++ "&ssl=true&sslmode=" ++
        pyStr (pyGet d "sslmode") ++ "&schema=" ++
        pyStr (pyGetD d "schema" (JVal.str "public"))) ∧
    generate_connection_string_maria d pw =
      Except.ok ("jdbc:postgresql://" ++ pyStr hv ++ ":" ++ pyStr (JVal.num 5432) ++
        "/" ++ pyStr (pyGet d "dbname") ++ "?user=" ++ pyStr uv ++
        "&password=" ++ quote_plus pw ++ "ssl=true&sslmode=" ++
        pyStr (pyGet d "sslmode") ++ "&schema=" ++
        pyStr (pyGetD d "schema" (JVal.str "public"))) := by
  have hpd : pyGetD d "port" (JVal.num 5432) = JVal.num 5432 := by
    simp [pyGetD, hport]
  refine ⟨?_, ?_, by decide, ?_, ?_⟩
  · intro d2 pw2 n1 n2 n3 n4 n5 n6 n7
    constructor
    · simp [generate_connection_string_pg, n1, n2, n3, n4, n5, n6, n7]
    · simp [generate_connection_string_maria, n1, n2, n3, n4, n5, n6, n7]
  · intro s t
    rw [quote_plus_append, quote_plus_append, quote_plus_space]
  · simp [generate_connection_string_pg, hjdbc, hh, hu, hpd]
  · simp [generate_connection_string_maria, hjdbc, hh, hu, hpd]

/-- Witness for the amended claim C10: the jdbc scenario with host h,
username u, dbname d, port absent and a password containing a space,
and an unrecognized type yielding the sentinel. -/
theorem claim_C10_connection_string_formatter_witness :
    (generate_connection_string_pg
        [("engine", JVal.str "postgres"), ("host", JVal.str "h"),
         ("username", JVal.str "u"), ("password", JVal.str "old"),
         ("dbname", JVal.str "d"), ("connection_string_type", JVal.str "mystery")]
        "p w" = Except.ok "(connection string type not supported)" ∧
      generate_connection_string_maria
        [("engine", JVal.str "postgres"), ("host", JVal.str "h"),
         ("username", JVal.str "u"), ("password", JVal.str "old"),
         ("dbname", JVal.str "d"), ("connection_string_type", JVal.str "mystery")]
        "p w" = Except.ok "(connection string type not supported)") ∧
    quote_plus ("p" ++ " " ++ "w") = quote_plus "p" ++ "+" ++ quote_plus "w" ∧
    generate_connection_string_pg
      [("engine", JVal.str "postgres"), ("host", JVal.str "h"),
       ("username", JVal.str "u"), ("password", JVal.str "old"),
       ("dbname", JVal.str "d"), ("connection_string_type", JVal.str "jdbc")]
      "p w" =
      Except.ok ("jdbc:postgresql://" ++ pyStr (JVal.str "h") ++ ":" ++
        pyStr (JVal.num 5432) ++ "/" ++
        pyStr (pyGet [("engine", JVal.str "postgres"), ("host", JVal.str "h"),
          ("username", JVal.str "u"), ("password", JVal.str "old"),
          ("dbname", JVal.str "d"), ("connection_string_type", JVal.str "jdbc")]
          "dbname") ++ "?user=" ++ pyStr (JVal.str "u") ++
        "&password=" ++ quote_plus "p w" ++ "&ssl=true&sslmode=" ++
        pyStr (pyGet [("engine", JVal.str "postgres"), ("host", JVal.str "h"),
          ("username", JVal.str "u"), ("password", JVal.str "old"),
          ("dbname", JVal.str "d"), ("connection_string_type", JVal.str "jdbc")]
          "sslmode") ++ "&schema=" ++
        pyStr (pyGetD [("engine", JVal.str "postgres"), ("host", JVal.str "h"),
          ("username", JVal.str "u"), ("password", JVal.str "old"),
          ("dbname", JVal.str "d"), ("connection_string_type", JVal.str "jdbc")]
          "schema" (JVal.str "public"))) := by
  have H := claim_C10_connection_string_formatter
    [("engine", JVal.str "postgres"), ("host", JVal.str "h"),
     ("username", JVal.str "u"), ("password", JVal.str "old"),
     ("dbname", JVal.str "d"), ("connection_string_type", JVal.str "jdbc")]
    "p w" (JVal.str "h") (JVal.str "u")
    (by decide) (by decide) (by decide) (by decide)
  exact ⟨H.1
      [("engine", JVal.str "postgres"), ("host", JVal.str "h"),
       ("username", JVal.str "u"), ("password", JVal.str "old"),
       ("dbname", JVal.str "d"), ("connection_string_type", JVal.str "mystery")]
      "p w" (by decide) (by decide) (by decide) (by decide) (by decide) (by decide)
      (by decide),
    H.2.1 "p" "w", H.2.2.2.1⟩

/-- Counterexample for claim C10 as stated: in the jdbc scenario with
the port absent and the password "p w", the formatted string renders
the space as a plus sign; no percent escape occurs anywhere in the
output, so the space is not percent-encoded in the password segment. -/
theorem claim_C10_percent_encoding_counterexample :
    generate_connection_string_pg
      [("engine", JVal.str "postgres"), ("host", JVal.str "h"),
       ("username", JVal.str "u"), ("password", JVal.str "old"),
       ("dbname", JVal.str "d"), ("connection_string_type", JVal.str "jdbc")]
      "p w" =
    Except.ok
      "jdbc:postgresql://h:5432/d?user=u&password=p+w&ssl=true&sslmode=None&schema=public" ∧
    strContains
      "jdbc:postgresql://h:5432/d?user=u&password=p+w&ssl=true&sslmode=None&schema=public"
      "%20" = false ∧
    strContains
      "jdbc:postgresql://h:5432/d?user=u&password=p+w&ssl=true&sslmode=None&schema=public"
      "p+w" = true ∧
    strContains
      "jdbc:postgresql://h:5432/d?user=u&password=p+w&ssl=true&sslmode=None&schema=public"
      "%" = false :=
  ⟨by decide, by decide, by decide, by decide⟩

/-- Claim C9 (amended): validation errors are fatal and surfaced, with
one exception in the code.  The dispatcher surfaces rotation-disabled,
missing-stage, ineligible-staging and unknown-step errors; payload
validation errors (missing required field, wrong engine tag) on the
current or pending fetch propagate out of set-secret, create-secret and
test-secret in both variants; and in the PostgreSQL set-secret even a
KeyError on the PREVIOUS fetch propagates.  The exception: the MariaDB
set-secret catches a KeyError on the PREVIOUS fetch and silently
treats it as no previous credential (see the counterexample). -/
theorem claim_C9_validation_errors_fatal
    (md : Metadata) (token step : String)
    (ora : MariaOracle) (orb : PgOracle) (prevF currF pendF prevG currG pendG : Fetch)
    (cd qd rd : SecretDict) (r : String) :
    (md.rotationEnabled = some false →
      ∃ m, lambda_handler_dispatch md token step = DispatchOutcome.failed m) ∧
    (md.rotationEnabled ≠ some false → lookupStages md.versions token = none →
      ∃ m, lambda_handler_dispatch md token step = DispatchOutcome.failed m) ∧
    (∀ stages, md.rotationEnabled ≠ some false →
      lookupStages md.versions token = some stages →
      "AWSCURRENT" ∉ stages → "AWSPENDING" ∉ stages →
      ∃ m, lambda_handler_dispatch md token step = DispatchOutcome.failed m) ∧
    (∀ stages, md.rotationEnabled ≠ some false →
      lookupStages md.versions token = some stages →
      "AWSCURRENT" ∉ stages → "AWSPENDING" ∈ stages →
      step ≠ "createSecret" → step ≠ "setSecret" → step ≠ "testSecret" →
      step ≠ "finishSecret" →
      ∃ m, lambda_handler_dispatch md token step = DispatchOutcome.failed m) ∧
    (∀ e, get_secret_dict_maria currF = Except.error e →
      set_secret_maria ora prevF currF pendF = (Except.error e, [])) ∧
    (∀ e, get_secret_dict_maria currF = Except.ok cd →
      get_secret_dict_maria pendF = Except.error e →
      set_secret_maria ora prevF currF pendF = (Except.error e, [])) ∧
    (∀ e, get_secret_dict_pg pendG = Except.error e →
      set_secret_pg orb prevG currG pendG = (Except.error e, [])) ∧
    (∀ m tr1 tr2, get_secret_dict_pg pendG = Except.ok rd →
      get_connection_pg orb rd = (Except.ok none, tr1) →
      get_secret_dict_pg currG = Except.ok qd →
      get_connection_pg orb qd = (Except.ok none, tr2) →
      get_secret_dict_pg prevG = Except.error (PyErr.keyError m) →
      set_secret_pg orb prevG currG pendG =
        (Except.error (PyErr.keyError m), tr1 ++ tr2)) ∧
    (∀ e, get_secret_dict_maria currF = Except.error e →
      create_secret_maria currF pendF r = (Except.error e, [])) ∧
    (∀ e, get_secret_dict_pg currG = Except.error e →
      create_secret_pg currG pendG r = (Except.error e, [])) ∧
    (∀ e, get_secret_dict_maria pendF = Except.error e →
      test_secret_maria ora pendF = (Except.error e, [])) ∧
    (∀ e, get_secret_dict_pg pendG = Except.error e →
      test_secret_pg orb pendG = (Except.error e, [])) := by
  refine ⟨?_, ?_, ?_, ?_, ?_, ?_, ?_, ?_, ?_, ?_, ?_, ?_⟩
  · intro h
    exact ⟨"Secret is not enabled for rotation", by simp [lambda_handler_dispatch, h]⟩
  · intro h1 h2
    exact ⟨"Secret version has no stage for rotation of secret",
      by simp [lambda_handler_dispatch, h1, h2]⟩
  · intro stages h1 h2 h3 h4
    exact ⟨"Secret version not set as AWSPENDING for rotation of secret",
      by simp [lambda_handler_dispatch, h1, h2, h3, h4]⟩
  · intro stages h1 h2 h3 h4 h5 h6 h7 h8
    exact ⟨"Invalid step parameter",
      by simp [lambda_handler_dispatch, h1, h2, h3, h4, h5, h6, h7, h8]⟩
  · intro e hf
    simp [set_secret_maria, hf]
  · intro e hok hf
    simp [set_secret_maria, hok, hf]
  · intro e hf
    simp [set_secret_pg, hf]
  · intro m tr1 tr2 hpend hconn1 hcurr hconn2 hprev
    simp [set_secret_pg, hpend, hconn1, hcurr, hconn2, hprev]
  · intro e hf
    simp [create_secret_maria, hf]
  · intro e hf
    simp [create_secret_pg, hf]
  · intro e hf
    simp [test_secret_maria, hf]
  · intro e hf
    simp [test_secret_pg, hf]

/-- Witness for the amended claim C9: rotation disabled fails the
dispatcher; a current payload missing its host fails the MariaDB
set-secret; a previous payload missing its host fails the PostgreSQL
set-secret once both logins failed. -/
theorem claim_C9_validation_errors_fatal_witness :
    (∃ m, lambda_handler_dispatch (Metadata.mk (some false) [("t", ["AWSPENDING"])])
      "t" "setSecret" = DispatchOutcome.failed m) ∧
    set_secret_maria (fun _ _ _ _ _ _ => false) Fetch.notFound
      (Fetch.payload [("engine", JVal.str "mariadb"),
        ("username", JVal.str "app"), ("password", JVal.str "cur")])
      (Fetch.payload [("engine", JVal.str "mariadb"), ("host", JVal.str "db1"),
        ("username", JVal.str "app"), ("password", JVal.str "new")]) =
      (Except.error (PyErr.keyError "host"), []) ∧
    set_secret_pg (fun _ _ _ _ _ _ => false)
      (Fetch.payload [("engine", JVal.str "postgres"),
        ("username", JVal.str "other"), ("password", JVal.str "old")])
      (Fetch.payload [("engine", JVal.str "postgres"), ("host", JVal.str "db1"),
        ("username", JVal.str "app"), ("password", JVal.str "cur")])
      (Fetch.payload [("engine", JVal.str "postgres"), ("host", JVal.str "db1"),
        ("username", JVal.str "app"), ("password", JVal.str "new")]) =
      (Except.error (PyErr.keyError "host"),
       [Ev.attemptP (JVal.str "db1") (JVal.str "app") (JVal.str "new")
          (JVal.str "postgres") 5432 (JVal.str "prefer")] ++
       [Ev.attemptP (JVal.str "db1") (JVal.str "app") (JVal.str "cur")
          (JVal.str "postgres") 5432 (JVal.str "prefer")]) := by
  have H := claim_C9_validation_errors_fatal
    (Metadata.mk (some false) [("t", ["AWSPENDING"])]) "t" "setSecret"
    (fun _ _ _ _ _ _ => false) (fun _ _ _ _ _ _ => false)
    Fetch.notFound
    (Fetch.payload [("engine", JVal.str "mariadb"),
      ("username", JVal.str "app"), ("password", JVal.str "cur")])
    (Fetch.payload [("engine", JVal.str "mariadb"), ("host", JVal.str "db1"),
      ("username", JVal.str "app"), ("password", JVal.str "new")])
    (Fetch.payload [("engine", JVal.str "postgres"),
      ("username", JVal.str "other"), ("password", JVal.str "old")])
    (Fetch.payload [("engine", JVal.str "postgres"), ("host", JVal.str "db1"),
      ("username", JVal.str "app"), ("password", JVal.str "cur")])
    (Fetch.payload [("engine", JVal.str "postgres"), ("host", JVal.str "db1"),
      ("username", JVal.str "app"), ("password", JVal.str "new")])
    [("engine", JVal.str "mariadb"),
      ("username", JVal.str "app"), ("password", JVal.str "cur")]
    [("engine", JVal.str "postgres"), ("host", JVal.str "db1"),
      ("username", JVal.str "app"), ("password", JVal.str "cur")]
    [("engine", JVal.str "postgres"), ("host", JVal.str "db1"),
      ("username", JVal.str "app"), ("password", JVal.str "new")]
    "freshpw"
  exact ⟨H.1 rfl,
    H.2.2.2.2.1 (PyErr.keyError "host") (by decide),
    H.2.2.2.2.2.2.2.1 "host"
      [Ev.attemptP (JVal.str "db1") (JVal.str "app") (JVal.str "new")
        (JVal.str "postgres") 5432 (JVal.str "prefer")]
      [Ev.attemptP (JVal.str "db1") (JVal.str "app") (JVal.str "cur")
        (JVal.str "postgres") 5432 (JVal.str "prefer")]
      (by decide) (by decide) (by decide) (by decide) (by decide)⟩

/-- Counterexample for claim C9 as stated: in the MariaDB set-secret,
a PREVIOUS payload missing the required host field raises a KeyError
during its fetch, yet the step catches it, silently treats it as no
previous credential, and completes the rotation successfully. -/
theorem claim_C9_maria_previous_keyerror_swallowed_counterexample :
    get_secret_dict_maria (Fetch.payload [("engine", JVal.str "mariadb"),
      ("username", JVal.str "other"), ("password", JVal.str "old")]) =
      Except.error (PyErr.keyError "host") ∧
    set_secret_maria (fun _ _ p _ _ _ => p == JVal.str "cur")
      (Fetch.payload [("engine", JVal.str "mariadb"),
        ("username", JVal.str "other"), ("password", JVal.str "old")])
      (Fetch.payload [("engine", JVal.str "mariadb"), ("host", JVal.str "db1"),
        ("username", JVal.str "app"), ("password", JVal.str "cur")])
      (Fetch.payload [("engine", JVal.str "mariadb"), ("host", JVal.str "db1"),
        ("username", JVal.str "app"), ("password", JVal.str "new")]) =
    (Except.ok (),
     [Ev.attemptM (JVal.str "db1") (JVal.str "app") (JVal.str "new") 3306 none true,
      Ev.attemptM (JVal.str "db1") (JVal.str "app") (JVal.str "new") 3306 none false,
      Ev.attemptM (JVal.str "db1") (JVal.str "app") (JVal.str "cur") 3306 none true,
      Ev.execStmt "SET PASSWORD = PASSWORD(%s)" (some (JVal.str "new")),
      Ev.commit, Ev.closeConn]) :=
  ⟨by decide, by decide⟩
